import Mathlib

/-!
Shallow embedding of the unified AI-provider layer
(src/core/model_providers/base_provider.py, openai_provider.py,
claude_provider.py, dify_provider.py and src/models/schemas/ai_provider.py,
common.py).

Modelling conventions:
* Python dicts that become JSON wire payloads are association lists
  (key-unique by construction); `dictSet` mirrors `d[k] = v` (replace in
  place, else append) and `dictUpdate` mirrors `d.update(u)`.
* Wall-clock time is an abstract millisecond counter: each scripted
  `_call_api` attempt consumes a stated duration and `asyncio.sleep`
  advances the clock by the slept amount, so
  `latency_ms = int((time.time() - start_time) * 1000)` becomes the
  elapsed milliseconds since the start of `chat`.
* Python floats (`avg_latency_ms`, `temperature`, ...) are embedded as
  rationals, keeping the arithmetic of the source exact.
* Pydantic validation of required fields is explicit: constructing a
  `UnifiedStreamResponse` without its required `content` field yields
  `none` (a `ValidationError`).
-/

namespace Spec2Proof

/-- `MessageRole` from src/models/schemas/common.py. -/
inductive MessageRole
  | user
  | assistant
  | system
  | function
  deriving DecidableEq, Repr

/-- `msg.role.value` (the `str` payload of the enum member). -/
def MessageRole.value : MessageRole → String
  | .user => "user"
  | .assistant => "assistant"
  | .system => "system"
  | .function => "function"

/-- `ProviderType` from src/models/schemas/common.py. -/
inductive ProviderType
  | openai
  | claude
  | qwen
  | gemini
  | dify
  deriving DecidableEq, Repr

/-- `provider_type.value`. -/
def ProviderType.value : ProviderType → String
  | .openai => "openai"
  | .claude => "claude"
  | .qwen => "qwen"
  | .gemini => "gemini"
  | .dify => "dify"

/-- JSON values appearing in wire payloads. -/
inductive JsonV
  | null
  | bool (b : Bool)
  | num (q : ℚ)
  | str (s : String)
  | arr (xs : List JsonV)
  | obj (fields : List (String × JsonV))

/-- A Python dict holding JSON data, as an insertion-ordered association
list with unique keys. -/
abbrev JsonObj := List (String × JsonV)

/-- `d[k] = v` on a Python dict: replace the value in place if the key
exists (keeping its position), otherwise append. -/
def dictSet (d : JsonObj) (k : String) (v : JsonV) : JsonObj :=
  if d.any (fun p => p.fst = k) then
    d.map (fun p => if p.fst = k then (k, v) else p)
  else
    d ++ [(k, v)]

/-- `d.update(u)`: apply `d[k] = v` for each pair of `u` in order. -/
def dictUpdate (d : JsonObj) (u : JsonObj) : JsonObj :=
  u.foldl (fun acc p => dictSet acc p.fst p.snd) d

/-- `d.get(k)` / `d[k]` lookup. -/
def dictGet (d : JsonObj) (k : String) : Option JsonV :=
  (d.find? (fun p => p.fst = k)).map Prod.snd

/-- `TokenUsage` from src/models/schemas/common.py. -/
structure TokenUsage where
  prompt_tokens : Nat
  completion_tokens : Nat
  total_tokens : Nat
  deriving DecidableEq, Repr

/-- `BaseMessage` (aliased `UnifiedMessage`) from common.py: role, content,
optional name, optional function-call payload. -/
structure UnifiedMessage where
  role : MessageRole
  content : String
  name : Option String := none
  function_call : Option JsonObj := none

/-- `UnifiedChatRequest` from src/models/schemas/ai_provider.py. -/
structure UnifiedChatRequest where
  messages : List UnifiedMessage
  model : String
  temperature : ℚ := 7/10
  max_tokens : Option Nat := none
  stream : Bool := false
  top_p : Option ℚ := none
  frequency_penalty : Option ℚ := none
  presence_penalty : Option ℚ := none
  stop : Option (String ⊕ List String) := none
  user : Option String := none
  extra_params : JsonObj := []

/-- `UnifiedChatResponse` from src/models/schemas/ai_provider.py
(`created_at` omitted: wall-clock timestamp). -/
structure UnifiedChatResponse where
  id : String
  content : String
  model : String
  provider : ProviderType
  usage : TokenUsage
  finish_reason : String
  latency_ms : Option Nat := none
  extra_data : JsonObj := []

/-- `ProviderError` from src/models/schemas/ai_provider.py, as a value. -/
structure ProviderErrorE where
  error_code : String
  error_message : String
  provider : ProviderType
  retry_after : Option Nat := none
  is_retryable : Bool := false
  deriving DecidableEq, Repr

/-- `ProviderMetrics` from src/models/schemas/ai_provider.py
(`last_updated` and `total_cost` omitted: timestamp / never updated). -/
structure ProviderMetrics where
  provider : ProviderType
  model : String
  request_count : Nat := 0
  success_count : Nat := 0
  error_count : Nat := 0
  avg_latency_ms : ℚ := 0
  total_tokens : Nat := 0
  deriving DecidableEq, Repr

/-- `BaseProviderConfig` from src/models/schemas/ai_provider.py
(`retry_delay`, a float in seconds, is carried in milliseconds). -/
structure BaseProviderConfig where
  provider_type : ProviderType
  api_key : String
  base_url : Option String := none
  timeout : ℚ := 30
  max_retries : Nat := 3
  retry_delay_ms : Nat := 1000
  supported_models : List String := []
  default_model : String := ""
  deriving DecidableEq, Repr

/-- One scripted outcome of `_call_api`: either a response after
`duration_ms` of wall-clock work, or an exception (its `str`) after
`duration_ms`. -/
inductive AttemptOutcome
  | ok (duration_ms : Nat) (resp : UnifiedChatResponse)
  | err (duration_ms : Nat) (msg : String)

/-- Wall-clock duration of an attempt. -/
def AttemptOutcome.dur : AttemptOutcome → Nat
  | .ok d _ => d
  | .err d _ => d

/-- Whether the attempt raised. -/
def AttemptOutcome.isErr : AttemptOutcome → Bool
  | .ok _ _ => false
  | .err _ _ => true

/-- `str(e)` of a failed attempt (`""` for a successful one). -/
def AttemptOutcome.errMsg : AttemptOutcome → String
  | .ok _ _ => ""
  | .err _ m => m

/-- Observable outcome of one `BaseModelProvider.chat` call: the returned
response or raised error, the metrics afterwards, the number of
`_call_api` invocations, the backoff sleeps performed in order, and the
total elapsed wall-clock milliseconds. -/
structure ChatOut where
  result : Except ProviderErrorE UnifiedChatResponse
  metrics : ProviderMetrics
  calls : Nat
  sleeps : List Nat
  elapsed_ms : Nat

/-- Success-path metrics update in `chat` (base_provider.py lines 139-146):
increment `success_count`, fold the latency into the running average as
`(avg * (success_count - 1) + latency) / success_count` with the already
incremented `success_count`, and add the response token total. -/
def metricsOnSuccess (m : ProviderMetrics) (latency : Nat) (tok : Nat) : ProviderMetrics :=
  let sc := m.success_count + 1
  { m with
      success_count := sc,
      avg_latency_ms := (m.avg_latency_ms * ((sc : ℚ) - 1) + (latency : ℚ)) / (sc : ℚ),
      total_tokens := m.total_tokens + tok }

/-- The error raised when every attempt failed (base_provider.py lines
169-175). -/
def maxRetriesError (pt : ProviderType) (maxRetries : Nat) (lastMsg : String) : ProviderErrorE :=
  { error_code := "MAX_RETRIES_EXCEEDED",
    error_message :=
      "Failed after " ++ toString (maxRetries + 1) ++ " attempts: " ++ lastMsg,
    provider := pt,
    is_retryable := false }

/-- The retry loop of `BaseModelProvider.chat` (base_provider.py lines
131-167). `fuel` is the number of attempts still allowed (initially
`max_retries + 1`); `attempt` is the current 0-based attempt index;
`clock` the elapsed milliseconds; `calls` and `sleeps` accumulate the
`_call_api` invocations and backoff sleeps; `lastMsg` is `str(last_error)`. -/
def chatGo (pt : ProviderType) (maxRetries retryDelay : Nat) (f : Nat → AttemptOutcome) :
    Nat → Nat → Nat → Nat → List Nat → ProviderMetrics → String → ChatOut
  | 0, _, clock, calls, sleeps, m, lastMsg =>
      { result := .error (maxRetriesError pt maxRetries lastMsg),
        metrics := m, calls := calls, sleeps := sleeps, elapsed_ms := clock }
  | fuel + 1, attempt, clock, calls, sleeps, m, _ =>
      match f attempt with
      | .ok dur resp =>
          let clock2 := clock + dur
          { result := .ok { resp with latency_ms := some clock2 },
            metrics := metricsOnSuccess m clock2 resp.usage.total_tokens,
            calls := calls + 1, sleeps := sleeps, elapsed_ms := clock2 }
      | .err dur msg =>
          let clock2 := clock + dur
          let m2 := { m with error_count := m.error_count + 1 }
          match fuel with
          | 0 =>
              chatGo pt maxRetries retryDelay f 0 (attempt + 1) clock2 (calls + 1) sleeps m2 msg
          | fuel2 + 1 =>
              let s := retryDelay * (attempt + 1)
              chatGo pt maxRetries retryDelay f (fuel2 + 1) (attempt + 1)
                (clock2 + s) (calls + 1) (sleeps ++ [s]) m2 msg

/-- `BaseModelProvider.chat` (base_provider.py lines 107-175) with the
`_call_api` outcomes scripted by `f`. It first increments
`request_count`, then runs the attempt loop. -/
def chat (pt : ProviderType) (cfg : BaseProviderConfig) (f : Nat → AttemptOutcome)
    (m : ProviderMetrics) : ChatOut :=
  chatGo pt cfg.max_retries cfg.retry_delay_ms f (cfg.max_retries + 1) 0 0 0 []
    { m with request_count := m.request_count + 1 } ""

/-- One successful step of the retry loop. -/
lemma chatGo_step_ok (pt : ProviderType) (N d : Nat) (f : Nat → AttemptOutcome)
    (fuel attempt clock calls : Nat) (sleeps : List Nat) (m : ProviderMetrics)
    (lm : String) (du : Nat) (resp : UnifiedChatResponse)
    (h : f attempt = .ok du resp) :
    chatGo pt N d f (fuel + 1) attempt clock calls sleeps m lm =
      { result := .ok { resp with latency_ms := some (clock + du) },
        metrics := metricsOnSuccess m (clock + du) resp.usage.total_tokens,
        calls := calls + 1, sleeps := sleeps, elapsed_ms := clock + du } := by
  rw [chatGo.eq_def]
  simp only [h]

/-- One failed, non-final step of the retry loop: backoff then retry. -/
lemma chatGo_step_err (pt : ProviderType) (N d : Nat) (f : Nat → AttemptOutcome)
    (fuel attempt clock calls : Nat) (sleeps : List Nat) (m : ProviderMetrics)
    (lm : String) (du : Nat) (ms : String) (h : f attempt = .err du ms) :
    chatGo pt N d f (fuel + 1 + 1) attempt clock calls sleeps m lm =
      chatGo pt N d f (fuel + 1) (attempt + 1) (clock + du + d * (attempt + 1))
        (calls + 1) (sleeps ++ [d * (attempt + 1)])
        { m with error_count := m.error_count + 1 } ms := by
  rw [chatGo.eq_def]
  simp only [h]

/-- The final failed step of the retry loop: no backoff, the loop ends. -/
lemma chatGo_step_err_last (pt : ProviderType) (N d : Nat) (f : Nat → AttemptOutcome)
    (attempt clock calls : Nat) (sleeps : List Nat) (m : ProviderMetrics)
    (lm : String) (du : Nat) (ms : String) (h : f attempt = .err du ms) :
    chatGo pt N d f 1 attempt clock calls sleeps m lm =
      { result := .error (maxRetriesError pt N ms),
        metrics := { m with error_count := m.error_count + 1 },
        calls := calls + 1, sleeps := sleeps, elapsed_ms := clock + du } := by
  rw [chatGo.eq_def]
  simp only [h]
  rw [chatGo.eq_def]

/-- Attempt-plus-backoff wall-clock cost of the failed attempts
`attempt, attempt+1, ..., attempt+K-1` of the retry loop. -/
def retryCost (d : Nat) (f : Nat → AttemptOutcome) (attempt K : Nat) : Nat :=
  ∑ i ∈ Finset.range K, ((f (attempt + i)).dur + d * (attempt + i + 1))

lemma retryCost_zero (d : Nat) (f : Nat → AttemptOutcome) (attempt : Nat) :
    retryCost d f attempt 0 = 0 := by
  simp [retryCost]

lemma retryCost_succ_head (d : Nat) (f : Nat → AttemptOutcome) (attempt K : Nat) :
    retryCost d f attempt (K + 1) =
      (f attempt).dur + d * (attempt + 1) + retryCost d f (attempt + 1) K := by
  unfold retryCost
  rw [Finset.sum_range_succ']
  have hsum : ∑ i ∈ Finset.range K, ((f (attempt + (i + 1))).dur + d * (attempt + (i + 1) + 1)) =
      ∑ i ∈ Finset.range K, ((f (attempt + 1 + i)).dur + d * (attempt + 1 + i + 1)) := by
    apply Finset.sum_congr rfl
    intro i _
    have hi : attempt + (i + 1) = attempt + 1 + i := by omega
    rw [hi]
  rw [hsum, Nat.add_zero]
  exact Nat.add_comm _ _

lemma range_map_mul_head (d attempt K : Nat) :
    d * (attempt + 1) :: (List.range K).map (fun i => d * (attempt + 1 + i + 1)) =
      (List.range (K + 1)).map (fun i => d * (attempt + i + 1)) := by
  rw [List.range_succ_eq_map]
  simp only [List.map_cons, List.map_map, Nat.add_zero]
  congr 1
  apply List.map_congr_left
  intro i _
  simp only [Function.comp_apply, Nat.succ_eq_add_one]
  ring_nf

/-- If the attempts `attempt, ..., attempt+K-1` fail and attempt
`attempt+K` succeeds (with `K < fuel`), the retry loop returns the
successful response stamped with the full elapsed latency, after `K`
error-count increments, `K+1` calls and `K` linearly growing sleeps. -/
lemma chatGo_errs_then_ok (pt : ProviderType) (N d : Nat) (f : Nat → AttemptOutcome) :
    ∀ (K fuel attempt clock calls : Nat) (sleeps : List Nat)
      (m : ProviderMetrics) (lm : String),
      K < fuel →
      (∀ i, i < K → (f (attempt + i)).isErr = true) →
      ∀ (dk : Nat) (resp : UnifiedChatResponse),
      f (attempt + K) = .ok dk resp →
      chatGo pt N d f fuel attempt clock calls sleeps m lm =
        { result := .ok { resp with latency_ms := some (clock + retryCost d f attempt K + dk) },
          metrics := metricsOnSuccess { m with error_count := m.error_count + K }
            (clock + retryCost d f attempt K + dk) resp.usage.total_tokens,
          calls := calls + K + 1,
          sleeps := sleeps ++ (List.range K).map (fun i => d * (attempt + i + 1)),
          elapsed_ms := clock + retryCost d f attempt K + dk } := by
  intro K
  induction K with
  | zero =>
      intro fuel attempt clock calls sleeps m lm hK _ dk resp hok
      match fuel, hK with
      | fuel + 1, _ =>
        rw [Nat.add_zero] at hok
        rw [chatGo_step_ok pt N d f fuel attempt clock calls sleeps m lm dk resp hok]
        simp [retryCost_zero]
  | succ K ih =>
      intro fuel attempt clock calls sleeps m lm hK herr dk resp hok
      match fuel, hK with
      | fuel + 1, hK =>
        have h0 : (f attempt).isErr = true := by
          have := herr 0 (Nat.succ_pos K)
          simpa using this
        cases hfa : f attempt with
        | ok du r => rw [hfa] at h0; simp [AttemptOutcome.isErr] at h0
        | err du ms =>
          have hfuel : K < fuel := by omega
          match fuel, hfuel with
          | fuel + 1, hfuel =>
            have herr2 : ∀ i, i < K → (f (attempt + 1 + i)).isErr = true := by
              intro i hi
              have := herr (i + 1) (by omega)
              have harr : attempt + (i + 1) = attempt + 1 + i := by omega
              rwa [harr] at this
            have hok2 : f (attempt + 1 + K) = .ok dk resp := by
              have harr : attempt + (K + 1) = attempt + 1 + K := by omega
              rwa [harr] at hok
            rw [chatGo_step_err pt N d f fuel attempt clock calls sleeps m lm du ms hfa]
            rw [ih (fuel + 1) (attempt + 1) (clock + du + d * (attempt + 1)) (calls + 1)
              (sleeps ++ [d * (attempt + 1)])
              { m with error_count := m.error_count + 1 } ms
              (by omega) herr2 dk resp hok2]
            have hcost : clock + du + d * (attempt + 1) + retryCost d f (attempt + 1) K =
                clock + retryCost d f attempt (K + 1) := by
              rw [retryCost_succ_head, hfa]
              simp only [AttemptOutcome.dur]
              omega
            have hsleeps : (sleeps ++ [d * (attempt + 1)]) ++
                  (List.range K).map (fun i => d * (attempt + 1 + i + 1)) =
                sleeps ++ (List.range (K + 1)).map (fun i => d * (attempt + i + 1)) := by
              rw [List.append_assoc, List.singleton_append, range_map_mul_head]
            simp only [hcost, hsleeps,
              show m.error_count + 1 + K = m.error_count + (K + 1) from by omega,
              show calls + 1 + K + 1 = calls + (K + 1) + 1 from by omega]

/-- If every attempt the fuel allows fails, the retry loop ends in the
`MAX_RETRIES_EXCEEDED` error carrying the message of the last failure,
after one error-count increment per attempt and one linearly growing
sleep between consecutive attempts. -/
lemma chatGo_all_errs (pt : ProviderType) (N d : Nat) (f : Nat → AttemptOutcome) :
    ∀ (fuel attempt clock calls : Nat) (sleeps : List Nat)
      (m : ProviderMetrics) (lm : String),
      1 ≤ fuel →
      (∀ i, i < fuel → (f (attempt + i)).isErr = true) →
      chatGo pt N d f fuel attempt clock calls sleeps m lm =
        { result := .error (maxRetriesError pt N ((f (attempt + (fuel - 1))).errMsg)),
          metrics := { m with error_count := m.error_count + fuel },
          calls := calls + fuel,
          sleeps := sleeps ++ (List.range (fuel - 1)).map (fun i => d * (attempt + i + 1)),
          elapsed_ms := clock + ∑ i ∈ Finset.range fuel, (f (attempt + i)).dur
            + ∑ i ∈ Finset.range (fuel - 1), d * (attempt + i + 1) } := by
  intro fuel
  induction fuel with
  | zero => intro _ _ _ _ _ _ h; omega
  | succ fuel ih =>
      intro attempt clock calls sleeps m lm _ herr
      have h0 : (f attempt).isErr = true := by
        have := herr 0 (Nat.succ_pos fuel)
        simpa using this
      cases hfa : f attempt with
      | ok du r => rw [hfa] at h0; simp [AttemptOutcome.isErr] at h0
      | err du ms =>
        cases fuel with
        | zero =>
            rw [chatGo_step_err_last pt N d f attempt clock calls sleeps m lm du ms hfa]
            simp [hfa, AttemptOutcome.errMsg, AttemptOutcome.dur]
        | succ fuel =>
            have herr2 : ∀ i, i < fuel + 1 → (f (attempt + 1 + i)).isErr = true := by
              intro i hi
              have := herr (i + 1) (by omega)
              have harr : attempt + (i + 1) = attempt + 1 + i := by omega
              rwa [harr] at this
            rw [chatGo_step_err pt N d f fuel attempt clock calls sleeps m lm du ms hfa]
            rw [ih (attempt + 1) (clock + du + d * (attempt + 1)) (calls + 1)
              (sleeps ++ [d * (attempt + 1)])
              { m with error_count := m.error_count + 1 } ms
              (by omega) herr2]
            have hmsg : attempt + 1 + (fuel + 1 - 1) = attempt + (fuel + 1 + 1 - 1) := by omega
            have hsleeps : (sleeps ++ [d * (attempt + 1)]) ++
                  (List.range (fuel + 1 - 1)).map (fun i => d * (attempt + 1 + i + 1)) =
                sleeps ++ (List.range (fuel + 1 + 1 - 1)).map (fun i => d * (attempt + i + 1)) := by
              rw [List.append_assoc, List.singleton_append,
                show fuel + 1 - 1 = fuel from rfl, show fuel + 1 + 1 - 1 = fuel + 1 from rfl,
                range_map_mul_head]
            have hdur : clock + du + d * (attempt + 1)
                  + ∑ i ∈ Finset.range (fuel + 1), (f (attempt + 1 + i)).dur
                  + ∑ i ∈ Finset.range (fuel + 1 - 1), d * (attempt + 1 + i + 1) =
                clock + ∑ i ∈ Finset.range (fuel + 1 + 1), (f (attempt + i)).dur
                  + ∑ i ∈ Finset.range (fuel + 1 + 1 - 1), d * (attempt + i + 1) := by
              rw [show fuel + 1 - 1 = fuel from rfl, show fuel + 1 + 1 - 1 = fuel + 1 from rfl]
              rw [Finset.sum_range_succ' (fun i => (f (attempt + i)).dur) (fuel + 1),
                  Finset.sum_range_succ' (fun i => d * (attempt + i + 1)) fuel]
              have hs1 : ∑ i ∈ Finset.range (fuel + 1), (f (attempt + (i + 1))).dur =
                  ∑ i ∈ Finset.range (fuel + 1), (f (attempt + 1 + i)).dur := by
                apply Finset.sum_congr rfl
                intro i _
                have hi : attempt + (i + 1) = attempt + 1 + i := by omega
                rw [hi]
              have hs2 : ∑ i ∈ Finset.range fuel, d * (attempt + (i + 1) + 1) =
                  ∑ i ∈ Finset.range fuel, d * (attempt + 1 + i + 1) := by
                apply Finset.sum_congr rfl
                intro i _
                have hi : attempt + (i + 1) = attempt + 1 + i := by omega
                rw [hi]
              rw [hs1, hs2]
              simp only [Nat.add_zero, hfa, AttemptOutcome.dur]
              abel
            rw [hmsg, hsleeps, hdur]
            simp only [show m.error_count + 1 + (fuel + 1) = m.error_count + (fuel + 1 + 1) from by omega,
              show calls + 1 + (fuel + 1) = calls + (fuel + 1 + 1) from by omega]

/-- A concrete successful response used in concrete runs. -/
def sampleResp : UnifiedChatResponse :=
  { id := "r", content := "c", model := "m", provider := .openai,
    usage := ⟨1, 2, 3⟩, finish_reason := "stop" }

/-- A scripted `_call_api` that fails once (100 ms, "boom") and then
succeeds in 50 ms. -/
def failOnceScript : Nat → AttemptOutcome :=
  fun i => if i = 0 then .err 100 "boom" else .ok 50 sampleResp

/-- A scripted `_call_api` that always fails, attempt `i` taking `10 + i`
milliseconds with message `"e" ++ toString i`. -/
def failAlwaysScript : Nat → AttemptOutcome :=
  fun i => .err (10 + i) ("e" ++ toString i)

/-- A concrete configuration: `max_retries = 3`, `retry_delay = 1` s. -/
def sampleCfg : BaseProviderConfig :=
  { provider_type := .openai, api_key := "sk-k", max_retries := 3, retry_delay_ms := 1000 }

/-- Fresh metrics for the sample provider. -/
def sampleMetrics : ProviderMetrics := { provider := .openai, model := "m" }

/-- C1 counterexample: run `chat` with `max_retries = 3`,
`retry_delay = 1000` ms on a script whose first attempt fails after
100 ms and whose second attempt succeeds after 50 ms.  The code stamps
`latency_ms = 100 + 1000 + 50 = 1150` — measured from the start of
`chat`, including the failed attempt and the backoff sleep — while the
claim says it should reflect only the final, successful attempt (50 ms). -/
theorem chat_latency_counterexample :
    (match (chat .openai sampleCfg failOnceScript sampleMetrics).result with
      | .ok r => r.latency_ms
      | .error _ => none) = some 1150 ∧
    (failOnceScript 1).dur = 50 ∧ (1150 : Nat) ≠ 50 := by
  refine ⟨rfl, rfl, by omega⟩

/-- C1 (amended): for a `chat` call whose underlying `_call_api` fails
`K ≤ max_retries` times and then succeeds, the stamped `latency_ms` is
the elapsed time of the whole call — the durations of the `K` failed
attempts plus the backoff sleeps `retry_delay * (i+1)` plus the duration
of the successful attempt, not the successful attempt alone —
`success_count` increments by exactly 1, `error_count` by exactly `K`,
and the latency is folded into `avg_latency_ms` by the running-average
formula `new_avg = (old_avg * (success_count - 1) + latency) / success_count`. -/
theorem chat_retry_then_success (pt : ProviderType) (cfg : BaseProviderConfig)
    (f : Nat → AttemptOutcome) (m : ProviderMetrics) (K : Nat)
    (hK : K ≤ cfg.max_retries)
    (herr : ∀ i, i < K → (f i).isErr = true)
    (dk : Nat) (resp : UnifiedChatResponse)
    (hok : f K = .ok dk resp) :
    (chat pt cfg f m).result =
      .ok { resp with latency_ms := some (retryCost cfg.retry_delay_ms f 0 K + dk) } ∧
    (chat pt cfg f m).calls = K + 1 ∧
    (chat pt cfg f m).metrics.request_count = m.request_count + 1 ∧
    (chat pt cfg f m).metrics.success_count = m.success_count + 1 ∧
    (chat pt cfg f m).metrics.error_count = m.error_count + K ∧
    (chat pt cfg f m).metrics.total_tokens = m.total_tokens + resp.usage.total_tokens ∧
    (chat pt cfg f m).metrics.avg_latency_ms =
      (m.avg_latency_ms * (((m.success_count + 1 : Nat) : ℚ) - 1)
          + ((retryCost cfg.retry_delay_ms f 0 K + dk : Nat) : ℚ))
        / ((m.success_count + 1 : Nat) : ℚ) := by
  have herr0 : ∀ i, i < K → (f (0 + i)).isErr = true := by
    intro i hi
    rw [Nat.zero_add]
    exact herr i hi
  have hok0 : f (0 + K) = .ok dk resp := by
    rw [Nat.zero_add]
    exact hok
  have h := chatGo_errs_then_ok pt cfg.max_retries cfg.retry_delay_ms f K
    (cfg.max_retries + 1) 0 0 0 []
    { m with request_count := m.request_count + 1 } "" (by omega) herr0 dk resp hok0
  have hchat : chat pt cfg f m =
      { result := .ok { resp with
          latency_ms := some (0 + retryCost cfg.retry_delay_ms f 0 K + dk) },
        metrics := metricsOnSuccess
          { m with request_count := m.request_count + 1,
                   error_count := m.error_count + K }
          (0 + retryCost cfg.retry_delay_ms f 0 K + dk) resp.usage.total_tokens,
        calls := 0 + K + 1,
        sleeps := [] ++ (List.range K).map (fun i => cfg.retry_delay_ms * (0 + i + 1)),
        elapsed_ms := 0 + retryCost cfg.retry_delay_ms f 0 K + dk } := h
  rw [hchat]
  refine ⟨by simp, by simp, ?_, ?_, ?_, ?_, ?_⟩
  · simp [metricsOnSuccess]
  · simp [metricsOnSuccess]
  · simp [metricsOnSuccess]
  · simp [metricsOnSuccess]
  · simp only [metricsOnSuccess, Nat.zero_add]

/-- C1 witness: the amended statement holds on the concrete one-failure
script, with latency `1100 + 50 = 1150`. -/
theorem chat_retry_then_success_witness :
    ((1 : Nat) ≤ sampleCfg.max_retries) ∧
    ((chat .openai sampleCfg failOnceScript sampleMetrics).result =
      .ok { sampleResp with
        latency_ms := some (retryCost sampleCfg.retry_delay_ms failOnceScript 0 1 + 50) } ∧
    (chat .openai sampleCfg failOnceScript sampleMetrics).calls = 1 + 1 ∧
    (chat .openai sampleCfg failOnceScript sampleMetrics).metrics.request_count =
      sampleMetrics.request_count + 1 ∧
    (chat .openai sampleCfg failOnceScript sampleMetrics).metrics.success_count =
      sampleMetrics.success_count + 1 ∧
    (chat .openai sampleCfg failOnceScript sampleMetrics).metrics.error_count =
      sampleMetrics.error_count + 1 ∧
    (chat .openai sampleCfg failOnceScript sampleMetrics).metrics.total_tokens =
      sampleMetrics.total_tokens + sampleResp.usage.total_tokens ∧
    (chat .openai sampleCfg failOnceScript sampleMetrics).metrics.avg_latency_ms =
      (sampleMetrics.avg_latency_ms * (((sampleMetrics.success_count + 1 : Nat) : ℚ) - 1)
          + ((retryCost sampleCfg.retry_delay_ms failOnceScript 0 1 + 50 : Nat) : ℚ))
        / ((sampleMetrics.success_count + 1 : Nat) : ℚ)) := by
  refine ⟨by decide, ?_⟩
  exact chat_retry_then_success .openai sampleCfg failOnceScript sampleMetrics 1
    (by decide)
    (by
      intro i hi
      have h0 : i = 0 := by omega
      subst h0
      rfl)
    50 sampleResp rfl

/-- C2: with `max_retries = N` and an always-failing `_call_api`, `chat`
makes exactly `N + 1` attempts, sleeps `retry_delay * (i + 1)` between
consecutive attempts (a strictly increasing linear backoff when
`retry_delay > 0`, which the config schema guarantees), increments
`error_count` once per attempt, and finally raises a `ProviderError`
with code `MAX_RETRIES_EXCEEDED`, `is_retryable = false`, whose message
embeds the last underlying error's message. -/
theorem chat_exhausted_retries (pt : ProviderType) (cfg : BaseProviderConfig)
    (f : Nat → AttemptOutcome) (m : ProviderMetrics)
    (herr : ∀ i, i ≤ cfg.max_retries → (f i).isErr = true)
    (hd : 0 < cfg.retry_delay_ms) :
    (chat pt cfg f m).calls = cfg.max_retries + 1 ∧
    (chat pt cfg f m).sleeps =
      (List.range cfg.max_retries).map (fun i => cfg.retry_delay_ms * (i + 1)) ∧
    List.Pairwise (· < ·) (chat pt cfg f m).sleeps ∧
    (chat pt cfg f m).result = .error
      { error_code := "MAX_RETRIES_EXCEEDED",
        error_message := "Failed after " ++ toString (cfg.max_retries + 1)
          ++ " attempts: " ++ (f cfg.max_retries).errMsg,
        provider := pt, retry_after := none, is_retryable := false } ∧
    (chat pt cfg f m).metrics.error_count = m.error_count + (cfg.max_retries + 1) ∧
    (chat pt cfg f m).metrics.request_count = m.request_count + 1 ∧
    (chat pt cfg f m).metrics.success_count = m.success_count := by
  have herr0 : ∀ i, i < cfg.max_retries + 1 → (f (0 + i)).isErr = true := by
    intro i hi
    rw [Nat.zero_add]
    exact herr i (by omega)
  have h := chatGo_all_errs pt cfg.max_retries cfg.retry_delay_ms f
    (cfg.max_retries + 1) 0 0 0 []
    { m with request_count := m.request_count + 1 } "" (by omega) herr0
  have hchat : chat pt cfg f m =
      { result := .error (maxRetriesError pt cfg.max_retries
          ((f (0 + (cfg.max_retries + 1 - 1))).errMsg)),
        metrics := { m with request_count := m.request_count + 1,
                            error_count := m.error_count + (cfg.max_retries + 1) },
        calls := 0 + (cfg.max_retries + 1),
        sleeps := [] ++ (List.range (cfg.max_retries + 1 - 1)).map
          (fun i => cfg.retry_delay_ms * (0 + i + 1)),
        elapsed_ms := 0 + ∑ i ∈ Finset.range (cfg.max_retries + 1), (f (0 + i)).dur
          + ∑ i ∈ Finset.range (cfg.max_retries + 1 - 1),
              cfg.retry_delay_ms * (0 + i + 1) } := h
  rw [hchat]
  have hsl : ([] : List Nat) ++ (List.range (cfg.max_retries + 1 - 1)).map
        (fun i => cfg.retry_delay_ms * (0 + i + 1)) =
      (List.range cfg.max_retries).map (fun i => cfg.retry_delay_ms * (i + 1)) := by
    simp
  refine ⟨by simp, hsl, ?_, ?_, by simp, by simp, by simp⟩
  · rw [ChatOut.sleeps]
    rw [hsl]
    refine List.Pairwise.map _ ?_ (List.pairwise_lt_range cfg.max_retries)
    intro a b hab
    exact mul_lt_mul_of_pos_left (by omega) hd
  · rw [ChatOut.result]
    simp [maxRetriesError]

/-- Python truthiness of an optional float (`if x:` is false for `None`
and for `0.0`). -/
def truthyOptQ : Option ℚ → Bool
  | none => false
  | some q => q != 0

/-- Python truthiness of an optional int. -/
def truthyOptNat : Option Nat → Bool
  | none => false
  | some n => n != 0

/-- Python truthiness of an optional string (false for `None` and `""`). -/
def truthyOptStr : Option String → Bool
  | none => false
  | some s => s != ""

/-- Python truthiness of `request.stop` (a string or a list of strings). -/
def truthyStop : Option (String ⊕ List String) → Bool
  | none => false
  | some (.inl s) => s != ""
  | some (.inr l) => !l.isEmpty

/-- `request.stop` as it is placed into the OpenAI payload. -/
def stopToJson : String ⊕ List String → JsonV
  | .inl s => .str s
  | .inr l => .arr (l.map .str)

/-- `OpenAIProvider._convert_to_openai_messages`: each message becomes a
`{role, content}` object, with `name` / `function_call` added when truthy. -/
def convertToOpenaiMessages (msgs : List UnifiedMessage) : List JsonV :=
  msgs.map (fun m =>
    let base : JsonObj := [("role", .str m.role.value), ("content", .str m.content)]
    let base := match m.name with
      | some n => if n != "" then base ++ [("name", .str n)] else base
      | none => base
    let base := match m.function_call with
      | some fc => if !fc.isEmpty then base ++ [("function_call", .obj fc)] else base
      | none => base
    .obj base)

/-- The `api_params` dict built by `OpenAIProvider._call_api`
(`streamFlag = false`, lines 96-118) and `_call_stream_api`
(`streamFlag = true`, lines 151-173): named fields first, optional
fields when truthy, then `api_params.update(request.extra_params)`. -/
def openaiApiParams (req : UnifiedChatRequest) (streamFlag : Bool) : JsonObj :=
  let base : JsonObj :=
    [("model", .str req.model),
     ("messages", .arr (convertToOpenaiMessages req.messages)),
     ("temperature", .num req.temperature),
     ("stream", .bool streamFlag)]
  let base := if truthyOptNat req.max_tokens then
      base ++ [("max_tokens", .num ((req.max_tokens.getD 0 : Nat) : ℚ))] else base
  let base := if truthyOptQ req.top_p then
      base ++ [("top_p", .num (req.top_p.getD 0))] else base
  let base := if truthyOptQ req.frequency_penalty then
      base ++ [("frequency_penalty", .num (req.frequency_penalty.getD 0))] else base
  let base := if truthyOptQ req.presence_penalty then
      base ++ [("presence_penalty", .num (req.presence_penalty.getD 0))] else base
  let base := match req.stop with
    | some st => if truthyStop (some st) then base ++ [("stop", stopToJson st)] else base
    | none => base
  let base := match req.user with
    | some u => if u != "" then base ++ [("user", .str u)] else base
    | none => base
  dictUpdate base req.extra_params

/-- `ClaudeProvider._convert_to_claude_messages` (lines 62-88): system
messages are pulled out into the system prompt (a later one overwrites
an earlier one); all other messages become `{role, content}` objects in
their original order. -/
def convertToClaudeMessages (msgs : List UnifiedMessage) : List JsonV × String :=
  msgs.foldl
    (fun acc m =>
      if m.role = .system then (acc.1, m.content)
      else (acc.1 ++ [JsonV.obj [("role", .str m.role.value), ("content", .str m.content)]],
            acc.2))
    ([], "")

/-- The `api_params` dict built by `ClaudeProvider._call_api` (lines
100-122) and `_call_stream_api`: `max_tokens or 1000`, the system prompt
as a dedicated top-level `system` field when non-empty, `stop` coerced
to a `stop_sequences` array, then `update(extra_params)`. -/
def claudeBaseParams (req : UnifiedChatRequest) (streamFlag : Bool) : JsonObj :=
  let conv := convertToClaudeMessages req.messages
  let base : JsonObj :=
    [("model", .str req.model),
     ("messages", .arr conv.1),
     ("max_tokens",
        .num (((if truthyOptNat req.max_tokens then req.max_tokens.getD 0 else 1000) : Nat) : ℚ)),
     ("temperature", .num req.temperature),
     ("stream", .bool streamFlag)]
  let base := if conv.2 != "" then base ++ [("system", .str conv.2)] else base
  let base := if truthyOptQ req.top_p then
      base ++ [("top_p", .num (req.top_p.getD 0))] else base
  match req.stop with
  | some st =>
      if truthyStop (some st) then
        base ++ [("stop_sequences",
          match st with
          | .inl s => .arr [.str s]
          | .inr l => .arr (l.map .str))]
      else base
  | none => base

/-- The full Claude request dict: the named fields of `claudeBaseParams`,
then `api_params.update(request.extra_params)`. -/
def claudeApiParams (req : UnifiedChatRequest) (streamFlag : Bool) : JsonObj :=
  dictUpdate (claudeBaseParams req streamFlag) req.extra_params

/-- `DifyProvider._convert_messages_to_query` (lines 64-86): the content
of the last user message; the last message's content if there is no user
message; `""` when the list is empty. -/
def convertMessagesToQuery (msgs : List UnifiedMessage) : String :=
  match msgs with
  | [] => ""
  | _ =>
    match (msgs.filter (fun m => m.role == .user)).getLast? with
    | some m => m.content
    | none => ((msgs.getLast?).map (fun m => m.content)).getD ""

/-- The context dict returned by
`DifyProvider._extract_conversation_context` (lines 88-116). -/
structure DifyContext where
  system_instruction : Option String
  conversation_history : Option (List (String × String))

/-- `DifyProvider._extract_conversation_context`: the first system
message's content as `system_instruction`; the user/assistant turns of
`messages[:-1]` as `(role.value, content)` pairs in order, present only
when non-empty. -/
def extractConversationContext (msgs : List UnifiedMessage) : DifyContext :=
  let hist := ((msgs.dropLast).filter
      (fun m => m.role == .user || m.role == .assistant)).map
      (fun m => (m.role.value, m.content))
  { system_instruction :=
      ((msgs.filter (fun m => m.role == .system)).head?).map (fun m => m.content),
    conversation_history := if hist.isEmpty then none else some hist }

/-- The fields of `DifyConfig` (ai_provider.py) the adapter reads. -/
structure DifyConfig where
  api_key : String
  base_url : String := "https://api.dify.ai"
  conversation_id : Option String := none
  app_id : Option String := none

/-- The `api_params` dict built by `DifyProvider._call_api`
(`responseMode = "blocking"`, lines 118-144) and `_call_stream_api`
(`"streaming"`) before the final `update(extra_params)`: `inputs`
carries the system instruction (or an empty dict), `query` the extracted
query, `user` the request user or a fresh uuid (`fallbackUser`), and the
configured conversation id when truthy.  The computed
`conversation_history` is never added to the dict. -/
def difyBaseParams (cfg : DifyConfig) (req : UnifiedChatRequest)
    (fallbackUser : String) (responseMode : String) : JsonObj :=
  let query := convertMessagesToQuery req.messages
  let ctx := extractConversationContext req.messages
  let base : JsonObj :=
    [("inputs", match ctx.system_instruction with
        | some s => .str s
        | none => .obj []),
     ("query", .str query),
     ("response_mode", .str responseMode),
     ("user", .str (match req.user with
        | some u => if u != "" then u else fallbackUser
        | none => fallbackUser))]
  match cfg.conversation_id with
  | some c => if c != "" then base ++ [("conversation_id", .str c)] else base
  | none => base

/-- The full Dify request dict: the named fields of `difyBaseParams`,
then `api_params.update(request.extra_params)`. -/
def difyApiParams (cfg : DifyConfig) (req : UnifiedChatRequest)
    (fallbackUser : String) (responseMode : String) : JsonObj :=
  dictUpdate (difyBaseParams cfg req fallbackUser responseMode) req.extra_params

/-- C2 witness: the statement holds on a concrete always-failing script
with `max_retries = 3` and `retry_delay = 1000` ms. -/
theorem chat_exhausted_retries_witness :
    (∀ i, i ≤ sampleCfg.max_retries → (failAlwaysScript i).isErr = true) ∧
    (0 < sampleCfg.retry_delay_ms) ∧
    ((chat .openai sampleCfg failAlwaysScript sampleMetrics).calls =
        sampleCfg.max_retries + 1 ∧
      (chat .openai sampleCfg failAlwaysScript sampleMetrics).sleeps =
        (List.range sampleCfg.max_retries).map (fun i => sampleCfg.retry_delay_ms * (i + 1)) ∧
      List.Pairwise (· < ·) (chat .openai sampleCfg failAlwaysScript sampleMetrics).sleeps ∧
      (chat .openai sampleCfg failAlwaysScript sampleMetrics).result = .error
        { error_code := "MAX_RETRIES_EXCEEDED",
          error_message := "Failed after " ++ toString (sampleCfg.max_retries + 1)
            ++ " attempts: " ++ (failAlwaysScript sampleCfg.max_retries).errMsg,
          provider := .openai, retry_after := none, is_retryable := false } ∧
      (chat .openai sampleCfg failAlwaysScript sampleMetrics).metrics.error_count =
        sampleMetrics.error_count + (sampleCfg.max_retries + 1) ∧
      (chat .openai sampleCfg failAlwaysScript sampleMetrics).metrics.request_count =
        sampleMetrics.request_count + 1 ∧
      (chat .openai sampleCfg failAlwaysScript sampleMetrics).metrics.success_count =
        sampleMetrics.success_count) := by
  refine ⟨fun i _ => rfl, by decide, ?_⟩
  exact chat_exhausted_retries .openai sampleCfg failAlwaysScript sampleMetrics
    (fun i _ => rfl) (by decide)

lemma dictGet_cons (p : String × JsonV) (d : JsonObj) (k : String) :
    dictGet (p :: d) k = if p.fst = k then some p.snd else dictGet d k := by
  by_cases h : p.fst = k <;> simp [dictGet, List.find?_cons, h]

lemma dictGet_of_not_key (d : JsonObj) (k : String)
    (h : ∀ p ∈ d, p.fst ≠ k) : dictGet d k = none := by
  induction d with
  | nil => rfl
  | cons p d ih =>
      rw [dictGet_cons]
      rw [if_neg (h p (List.mem_cons_self p d))]
      exact ih (fun q hq => h q (List.mem_cons_of_mem p hq))

lemma dictGet_dictSet_self (d : JsonObj) (k : String) (v : JsonV) :
    dictGet (dictSet d k v) k = some v := by
  unfold dictSet
  by_cases hany : d.any (fun p => p.fst = k)
  · rw [if_pos hany]
    induction d with
    | nil => simp at hany
    | cons p d ih =>
        rw [List.map_cons, dictGet_cons]
        by_cases hp : p.fst = k
        · rw [if_pos hp]
          simp
        · rw [if_neg hp]
          simp only [hp, if_false]
          have hany2 : d.any (fun p => p.fst = k) := by
            simp [List.any_cons, hp] at hany
            simpa using hany
          exact ih hany2
  · rw [if_neg hany]
    induction d with
    | nil => simp [dictGet]
    | cons p d ih =>
        rw [List.cons_append, dictGet_cons]
        have hp : p.fst ≠ k := by
          intro hk
          exact hany (by simp [List.any_cons, hk])
        rw [if_neg hp]
        have hany2 : ¬ d.any (fun p => p.fst = k) := by
          intro h2
          exact hany (by simp [List.any_cons]; right; simpa using h2)
        exact ih hany2

lemma dictGet_dictSet_ne (d : JsonObj) (k k2 : String) (v : JsonV)
    (hne : k2 ≠ k) : dictGet (dictSet d k v) k2 = dictGet d k2 := by
  unfold dictSet
  by_cases hany : d.any (fun p => p.fst = k)
  · rw [if_pos hany]
    clear hany
    induction d with
    | nil => rfl
    | cons p d ih =>
        rw [List.map_cons, dictGet_cons, dictGet_cons]
        by_cases hp : p.fst = k
        · rw [if_pos hp]
          have : ¬ (k = k2) := fun h => hne h.symm
          simp only [this, if_false]
          rw [if_neg (by rw [hp]; exact fun h => hne h.symm)]
          exact ih
        · rw [if_neg hp]
          by_cases hp2 : p.fst = k2
          · rw [if_pos hp2, if_pos hp2]
          · rw [if_neg hp2, if_neg hp2]
            exact ih
  · rw [if_neg hany]
    induction d with
    | nil =>
        simp only [List.nil_append]
        rw [dictGet_cons]
        rw [if_neg (fun h => hne h.symm)]
    | cons p d ih =>
        rw [List.cons_append, dictGet_cons, dictGet_cons]
        by_cases hp2 : p.fst = k2
        · rw [if_pos hp2, if_pos hp2]
        · rw [if_neg hp2, if_neg hp2]
          have hany2 : ¬ d.any (fun p => p.fst = k) := by
            intro h2
            exact hany (by simp [List.any_cons]; right; simpa using h2)
          exact ih hany2

lemma dictGet_dictUpdate_not_key (d u : JsonObj) (k : String)
    (h : ∀ p ∈ u, p.fst ≠ k) :
    dictGet (dictUpdate d u) k = dictGet d k := by
  induction u generalizing d with
  | nil => rfl
  | cons p u ih =>
      unfold dictUpdate
      rw [List.foldl_cons]
      have step := ih (dictSet d p.fst p.snd) (fun q hq => h q (List.mem_cons_of_mem p hq))
      unfold dictUpdate at step
      rw [step]
      exact dictGet_dictSet_ne d p.fst k p.snd
        (fun hk => h p (List.mem_cons_self p u) hk.symm)

lemma dictGet_dictUpdate_key (d u : JsonObj) (k : String) (v : JsonV)
    (hnd : (u.map Prod.fst).Nodup)
    (hk : dictGet u k = some v) :
    dictGet (dictUpdate d u) k = some v := by
  induction u generalizing d with
  | nil => simp [dictGet] at hk
  | cons p u ih =>
      unfold dictUpdate
      rw [List.foldl_cons]
      rw [dictGet_cons] at hk
      rw [List.map_cons, List.nodup_cons] at hnd
      by_cases hp : p.fst = k
      · rw [if_pos hp] at hk
        have hv : p.snd = v := Option.some.inj hk
        have hnk : ∀ q ∈ u, q.fst ≠ k := by
          intro q hq hqk
          exact hnd.1 (by rw [← hp] at hqk; exact hqk ▸ List.mem_map_of_mem Prod.fst hq)
        have step : dictGet (dictUpdate (dictSet d p.fst p.snd) u) k =
            dictGet (dictSet d p.fst p.snd) k :=
          dictGet_dictUpdate_not_key _ u k hnk
        unfold dictUpdate at step
        rw [step, ← hp, ← hv]
        exact dictGet_dictSet_self d p.fst p.snd
      · rw [if_neg hp] at hk
        exact ih (dictSet d p.fst p.snd) hnd.2 hk

lemma mem_dictSet_key (d : JsonObj) (k : String) (v : JsonV) (q : String × JsonV)
    (hq : q ∈ dictSet d k v) : q.fst ∈ d.map Prod.fst ∨ q.fst = k := by
  unfold dictSet at hq
  by_cases hany : d.any (fun p => p.fst = k)
  · rw [if_pos hany] at hq
    obtain ⟨p, hp, hpq⟩ := List.mem_map.mp hq
    by_cases hpk : p.fst = k
    · rw [if_pos hpk] at hpq
      right
      rw [← hpq]
    · rw [if_neg hpk] at hpq
      left
      rw [← hpq]
      exact List.mem_map_of_mem Prod.fst hp
  · rw [if_neg hany] at hq
    rcases List.mem_append.mp hq with h | h
    · exact Or.inl (List.mem_map_of_mem Prod.fst h)
    · right
      simp at h
      rw [h]

lemma mem_dictUpdate_key (d u : JsonObj) (q : String × JsonV)
    (hq : q ∈ dictUpdate d u) :
    q.fst ∈ d.map Prod.fst ∨ q.fst ∈ u.map Prod.fst := by
  induction u generalizing d with
  | nil => exact Or.inl (List.mem_map_of_mem Prod.fst hq)
  | cons p u ih =>
      unfold dictUpdate at hq
      rw [List.foldl_cons] at hq
      rcases ih (dictSet d p.fst p.snd) hq with h | h
      · rcases List.mem_map.mp h with ⟨r, hr, hrq⟩
        rcases mem_dictSet_key d p.fst p.snd r hr with h2 | h2
        · exact Or.inl (hrq ▸ h2)
        · right
          rw [List.map_cons, ← hrq, h2]
          exact List.mem_cons_self _ _
      · right
        rw [List.map_cons]
        exact List.mem_cons_of_mem _ h

/-- C5 counterexample: an `extra_params` key equal to a named field
overrides it, because each adapter runs
`api_params.update(request.extra_params)` after writing the named
fields.  With `extra_params = {"model": "shadow"}` the OpenAI payload's
`model` is `"shadow"`, not the request's `"gpt-4"`. -/
theorem extra_params_shadow_counterexample :
    dictGet (openaiApiParams
      { messages := [{ role := .user, content := "hi" }], model := "gpt-4",
        extra_params := [("model", .str "shadow")] } false) "model" =
      some (.str "shadow") ∧
    JsonV.str "shadow" ≠ JsonV.str "gpt-4" := by
  constructor
  · rfl
  · intro h
    injection h with h2
    exact absurd h2 (by decide)

/-- C5 (amended): the merge order is named-fields-first, then
`update(extra_params)`, so `extra_params` keys take precedence over the
named fields in every adapter's outgoing payload: any key present in
`extra_params` maps to its `extra_params` value in the payload. -/
theorem extra_params_take_precedence (req : UnifiedChatRequest) (streamFlag : Bool)
    (cfg : DifyConfig) (fallbackUser responseMode : String) (k : String) (v : JsonV)
    (hnd : (req.extra_params.map Prod.fst).Nodup)
    (hk : dictGet req.extra_params k = some v) :
    dictGet (openaiApiParams req streamFlag) k = some v ∧
    dictGet (claudeApiParams req streamFlag) k = some v ∧
    dictGet (difyApiParams cfg req fallbackUser responseMode) k = some v :=
  ⟨dictGet_dictUpdate_key _ req.extra_params k v hnd hk,
   dictGet_dictUpdate_key _ req.extra_params k v hnd hk,
   dictGet_dictUpdate_key _ req.extra_params k v hnd hk⟩

/-- C5 witness: the amended statement at the concrete shadowing request. -/
theorem extra_params_take_precedence_witness :
    ((([("model", JsonV.str "shadow")] : JsonObj).map Prod.fst).Nodup ∧
      dictGet [("model", JsonV.str "shadow")] "model" = some (.str "shadow")) ∧
    (dictGet (openaiApiParams
        { messages := [{ role := .user, content := "hi" }], model := "gpt-4",
          extra_params := [("model", .str "shadow")] } false) "model" =
        some (.str "shadow") ∧
      dictGet (claudeApiParams
        { messages := [{ role := .user, content := "hi" }], model := "gpt-4",
          extra_params := [("model", .str "shadow")] } false) "model" =
        some (.str "shadow") ∧
      dictGet (difyApiParams { api_key := "difykey123" }
        { messages := [{ role := .user, content := "hi" }], model := "gpt-4",
          extra_params := [("model", .str "shadow")] } "u0" "blocking") "model" =
        some (.str "shadow")) :=
  ⟨⟨by simp, rfl⟩,
   extra_params_take_precedence
     { messages := [{ role := .user, content := "hi" }], model := "gpt-4",
       extra_params := [("model", .str "shadow")] } false
     { api_key := "difykey123" } "u0" "blocking" "model" (.str "shadow")
     (by simp) rfl⟩

lemma dictGet_append_of_some (l l2 : JsonObj) (k : String) (v : JsonV)
    (h : dictGet l k = some v) : dictGet (l ++ l2) k = some v := by
  induction l with
  | nil => simp [dictGet] at h
  | cons p l ih =>
      rw [dictGet_cons] at h
      rw [List.cons_append, dictGet_cons]
      by_cases hp : p.fst = k
      · rw [if_pos hp] at h
        rw [if_pos hp]
        exact h
      · rw [if_neg hp] at h
        rw [if_neg hp]
        exact ih h

mutual

/-- Whether the string `t` occurs as a `str` node anywhere in a JSON value. -/
def jsonHasStr : JsonV → String → Bool
  | .null, _ => false
  | .bool _, _ => false
  | .num _, _ => false
  | .str s, t => s == t
  | .arr xs, t => jsonListHasStr xs t
  | .obj fs, t => jsonFieldsHasStr fs t

/-- `jsonHasStr` over a list of JSON values. -/
def jsonListHasStr : List JsonV → String → Bool
  | [], _ => false
  | j :: js, t => jsonHasStr j t || jsonListHasStr js t

/-- `jsonHasStr` over the values of an object. -/
def jsonFieldsHasStr : List (String × JsonV) → String → Bool
  | [], _ => false
  | (_, j) :: fs, t => jsonHasStr j t || jsonFieldsHasStr fs t

end

/-- `_convert_messages_to_query` on a conversation whose final message is
a user message: the query is that final message's content. -/
lemma convertMessagesToQuery_concat_user (pre : List UnifiedMessage) (a : UnifiedMessage)
    (ha : a.role = .user) : convertMessagesToQuery (pre ++ [a]) = a.content := by
  have hfilter : (pre ++ [a]).filter (fun m => m.role == .user) =
      pre.filter (fun m => m.role == .user) ++ [a] := by
    rw [List.filter_append]
    congr 1
    simp [List.filter, ha]
  cases pre with
  | nil =>
      simp only [List.nil_append]
      simp [convertMessagesToQuery, List.filter, ha]
  | cons m pre2 =>
      rw [List.cons_append]
      simp only [convertMessagesToQuery]
      rw [← List.cons_append, hfilter, List.getLast?_concat]

lemma dictGet_difyBaseParams_query (cfg : DifyConfig) (req : UnifiedChatRequest)
    (fallbackUser responseMode : String) :
    dictGet (difyBaseParams cfg req fallbackUser responseMode) "query" =
      some (.str (convertMessagesToQuery req.messages)) := by
  unfold difyBaseParams
  have h0 : dictGet
      [("inputs", match (extractConversationContext req.messages).system_instruction with
          | some s => JsonV.str s
          | none => .obj []),
       ("query", .str (convertMessagesToQuery req.messages)),
       ("response_mode", .str responseMode),
       ("user", .str (match req.user with
          | some u => if u != "" then u else fallbackUser
          | none => fallbackUser))] "query" =
      some (.str (convertMessagesToQuery req.messages)) := by
    simp [dictGet_cons]
  cases cfg.conversation_id with
  | none => exact h0
  | some c =>
      cases hc : c != "" with
      | false => simp only [hc, Bool.false_eq_true, if_false]; exact h0
      | true =>
          simp only [hc, if_true]
          exact dictGet_append_of_some _ _ _ _ h0

lemma dictGet_difyBaseParams_inputs (cfg : DifyConfig) (req : UnifiedChatRequest)
    (fallbackUser responseMode : String) :
    dictGet (difyBaseParams cfg req fallbackUser responseMode) "inputs" =
      some (match (extractConversationContext req.messages).system_instruction with
        | some s => JsonV.str s
        | none => .obj []) := by
  unfold difyBaseParams
  have h0 : dictGet
      [("inputs", match (extractConversationContext req.messages).system_instruction with
          | some s => JsonV.str s
          | none => .obj []),
       ("query", .str (convertMessagesToQuery req.messages)),
       ("response_mode", .str responseMode),
       ("user", .str (match req.user with
          | some u => if u != "" then u else fallbackUser
          | none => fallbackUser))] "inputs" =
      some (match (extractConversationContext req.messages).system_instruction with
        | some s => JsonV.str s
        | none => .obj []) := by
    simp [dictGet_cons]
  cases cfg.conversation_id with
  | none => exact h0
  | some c =>
      cases hc : c != "" with
      | false => simp only [hc, Bool.false_eq_true, if_false]; exact h0
      | true =>
          simp only [hc, if_true]
          exact dictGet_append_of_some _ _ _ _ h0

lemma difyBaseParams_keys (cfg : DifyConfig) (req : UnifiedChatRequest)
    (fallbackUser responseMode : String) :
    ∀ p ∈ difyBaseParams cfg req fallbackUser responseMode,
      p.fst ∈ (["inputs", "query", "response_mode", "user", "conversation_id"] :
        List String) := by
  intro p hp
  unfold difyBaseParams at hp
  rcases hcid : cfg.conversation_id with _ | c
  · simp only [hcid] at hp
    simp only [List.mem_cons, List.not_mem_nil, or_false] at hp
    rcases hp with rfl | rfl | rfl | rfl <;> simp
  · simp only [hcid] at hp
    cases hc : c != "" with
    | false =>
        simp [hc] at hp
        rcases hp with rfl | rfl | rfl | rfl <;> simp
    | true =>
        simp [hc] at hp
        rcases hp with rfl | rfl | rfl | rfl | rfl <;> simp

/-- C3 counterexample: on a concrete multi-turn conversation the Dify
adapter computes the conversation history (the earlier user/assistant
turns) but the outgoing wire payload consists of `inputs`, `query`,
`response_mode` and `user` only — no field of the payload mentions the
earlier assistant turn at all, so the history is not on the wire. -/
theorem dify_history_missing_counterexample :
    difyApiParams { api_key := "difykey123" }
      { messages := [⟨.system, "sys", none, none⟩, ⟨.user, "q1", none, none⟩,
                     ⟨.assistant, "a1", none, none⟩, ⟨.user, "q2", none, none⟩],
        model := "m" } "u0" "blocking" =
      [("inputs", .str "sys"), ("query", .str "q2"),
       ("response_mode", .str "blocking"), ("user", .str "u0")] ∧
    (extractConversationContext
        [⟨.system, "sys", none, none⟩, ⟨.user, "q1", none, none⟩,
         ⟨.assistant, "a1", none, none⟩, ⟨.user, "q2", none, none⟩]).conversation_history =
      some [("user", "q1"), ("assistant", "a1")] ∧
    ([("inputs", JsonV.str "sys"), ("query", .str "q2"),
      ("response_mode", .str "blocking"), ("user", .str "u0")].all
        (fun p => !jsonHasStr p.snd "a1")) = true :=
  ⟨rfl, rfl, rfl⟩

/-- C3 (amended): for a multi-turn request ending in a user message
(whose `extra_params` does not override the `query`/`inputs` keys), the
Dify wire payload's `query` equals the content of the last user message
and its `inputs` field carries the extracted system instruction;
`_extract_conversation_context` does collect every earlier user and
assistant message in original order (system excluded) as
`conversation_history`, but that history is never placed in the
outgoing payload, whose keys are only `inputs`, `query`,
`response_mode`, `user`, `conversation_id` and the `extra_params` keys. -/
theorem dify_payload_query_inputs_history (cfg : DifyConfig) (req : UnifiedChatRequest)
    (fallbackUser responseMode : String) (pre : List UnifiedMessage)
    (lastMsg : UnifiedMessage)
    (hmsgs : req.messages = pre ++ [lastMsg])
    (hlast : lastMsg.role = .user)
    (hq : ∀ p ∈ req.extra_params, p.fst ≠ "query")
    (hi : ∀ p ∈ req.extra_params, p.fst ≠ "inputs") :
    dictGet (difyApiParams cfg req fallbackUser responseMode) "query" =
      some (.str lastMsg.content) ∧
    dictGet (difyApiParams cfg req fallbackUser responseMode) "inputs" =
      some (match (extractConversationContext req.messages).system_instruction with
        | some s => JsonV.str s
        | none => .obj []) ∧
    (extractConversationContext req.messages).conversation_history =
      (if ((pre.filter (fun m => m.role == .user || m.role == .assistant)).map
            (fun m => (m.role.value, m.content))).isEmpty
       then none
       else some ((pre.filter (fun m => m.role == .user || m.role == .assistant)).map
            (fun m => (m.role.value, m.content)))) ∧
    (∀ p ∈ difyApiParams cfg req fallbackUser responseMode,
      p.fst ∈ (["inputs", "query", "response_mode", "user", "conversation_id"] :
        List String) ∨
      p.fst ∈ req.extra_params.map Prod.fst) := by
  refine ⟨?_, ?_, ?_, ?_⟩
  · have h1 : dictGet (difyApiParams cfg req fallbackUser responseMode) "query" =
        dictGet (difyBaseParams cfg req fallbackUser responseMode) "query" :=
      dictGet_dictUpdate_not_key _ _ _ hq
    rw [h1, dictGet_difyBaseParams_query]
    rw [hmsgs, convertMessagesToQuery_concat_user pre lastMsg hlast]
  · have h1 : dictGet (difyApiParams cfg req fallbackUser responseMode) "inputs" =
        dictGet (difyBaseParams cfg req fallbackUser responseMode) "inputs" :=
      dictGet_dictUpdate_not_key _ _ _ hi
    rw [h1, dictGet_difyBaseParams_inputs]
  · rw [hmsgs]
    unfold extractConversationContext
    rw [List.dropLast_concat]
  · intro p hp
    rcases mem_dictUpdate_key (difyBaseParams cfg req fallbackUser responseMode)
        req.extra_params p hp with h | h
    · left
      rcases List.mem_map.mp h with ⟨q, hq2, hq3⟩
      rw [← hq3]
      exact difyBaseParams_keys cfg req fallbackUser responseMode q hq2
    · exact Or.inr h

/-- C3 witness: the amended statement on the concrete four-message
conversation of the counterexample. -/
theorem dify_payload_query_inputs_history_witness :
    (([⟨.system, "sys", none, none⟩, ⟨.user, "q1", none, none⟩,
       ⟨.assistant, "a1", none, none⟩, ⟨.user, "q2", none, none⟩] :
        List UnifiedMessage) =
      [⟨.system, "sys", none, none⟩, ⟨.user, "q1", none, none⟩,
       ⟨.assistant, "a1", none, none⟩] ++ [⟨.user, "q2", none, none⟩]) ∧
    ((⟨.user, "q2", none, none⟩ : UnifiedMessage).role = .user) ∧
    (dictGet (difyApiParams { api_key := "difykey123" }
        { messages := [⟨.system, "sys", none, none⟩, ⟨.user, "q1", none, none⟩,
                       ⟨.assistant, "a1", none, none⟩, ⟨.user, "q2", none, none⟩],
          model := "m" } "u0" "blocking") "query" =
      some (.str "q2")) := by
  refine ⟨rfl, rfl, ?_⟩
  have h := dify_payload_query_inputs_history { api_key := "difykey123" }
    { messages := [⟨.system, "sys", none, none⟩, ⟨.user, "q1", none, none⟩,
                   ⟨.assistant, "a1", none, none⟩, ⟨.user, "q2", none, none⟩],
      model := "m" } "u0" "blocking"
    [⟨.system, "sys", none, none⟩, ⟨.user, "q1", none, none⟩,
     ⟨.assistant, "a1", none, none⟩] ⟨.user, "q2", none, none⟩
    rfl rfl (by intro p hp; simp at hp) (by intro p hp; simp at hp)
  exact h.1

lemma dictGet_append_single_ne (l : JsonObj) (k2 : String) (v : JsonV) (k : String)
    (hne : k2 ≠ k) : dictGet (l ++ [(k2, v)]) k = dictGet l k := by
  induction l with
  | nil =>
      rw [List.nil_append, dictGet_cons, if_neg hne]
  | cons p l ih =>
      rw [List.cons_append, dictGet_cons, dictGet_cons]
      by_cases hp : p.fst = k
      · rw [if_pos hp, if_pos hp]
      · rw [if_neg hp, if_neg hp]
        exact ih

lemma dictGet_append_single_self (l : JsonObj) (k : String) (v : JsonV)
    (h : ∀ p ∈ l, p.fst ≠ k) : dictGet (l ++ [(k, v)]) k = some v := by
  induction l with
  | nil =>
      rw [List.nil_append, dictGet_cons, if_pos rfl]
  | cons p l ih =>
      rw [List.cons_append, dictGet_cons]
      rw [if_neg (h p (List.mem_cons_self p l))]
      exact ih (fun q hq => h q (List.mem_cons_of_mem p hq))

/-- The system-extracting fold of `_convert_to_claude_messages` over a
run of non-system messages appends one `{role, content}` object per
message, in order, and leaves the system prompt unchanged. -/
lemma claude_fold_no_system (msgs : List UnifiedMessage) (acc : List JsonV) (sys : String)
    (h : ∀ m ∈ msgs, m.role ≠ .system) :
    msgs.foldl
      (fun acc2 m =>
        if m.role = .system then (acc2.1, m.content)
        else (acc2.1 ++ [JsonV.obj [("role", .str m.role.value), ("content", .str m.content)]],
              acc2.2))
      (acc, sys) =
    (acc ++ msgs.map (fun m =>
        JsonV.obj [("role", .str m.role.value), ("content", .str m.content)]), sys) := by
  induction msgs generalizing acc with
  | nil => simp
  | cons m msgs ih =>
      simp only [List.foldl_cons]
      rw [if_neg (h m (List.mem_cons_self m msgs))]
      rw [ih (acc ++ [JsonV.obj [("role", .str m.role.value), ("content", .str m.content)]])
        (fun q hq => h q (List.mem_cons_of_mem m hq))]
      simp

/-- `_convert_to_claude_messages` on one leading system message followed
by non-system messages: the system content becomes the system prompt and
the rest become `{role, content}` objects in order. -/
lemma convertToClaudeMessages_system_head (sysMsg : UnifiedMessage)
    (rest : List UnifiedMessage) (hs : sysMsg.role = .system)
    (h : ∀ m ∈ rest, m.role ≠ .system) :
    convertToClaudeMessages (sysMsg :: rest) =
      (rest.map (fun m =>
        JsonV.obj [("role", .str m.role.value), ("content", .str m.content)]),
       sysMsg.content) := by
  unfold convertToClaudeMessages
  simp only [List.foldl_cons]
  rw [if_pos hs]
  simpa using claude_fold_no_system rest [] sysMsg.content h

lemma dictGet_claudeBaseParams_system (req : UnifiedChatRequest) (streamFlag : Bool)
    (hsys : (convertToClaudeMessages req.messages).2 ≠ "") :
    dictGet (claudeBaseParams req streamFlag) "system" =
      some (.str (convertToClaudeMessages req.messages).2) := by
  unfold claudeBaseParams
  have hs2 : ((convertToClaudeMessages req.messages).2 != "") = true :=
    bne_iff_ne.mpr hsys
  simp only [hs2, if_true]
  have h0 : dictGet
      ([("model", JsonV.str req.model),
        ("messages", .arr (convertToClaudeMessages req.messages).1),
        ("max_tokens",
          .num (((if truthyOptNat req.max_tokens then req.max_tokens.getD 0 else 1000) : Nat) : ℚ)),
        ("temperature", .num req.temperature),
        ("stream", .bool streamFlag)] ++
        [("system", .str (convertToClaudeMessages req.messages).2)]) "system" =
      some (.str (convertToClaudeMessages req.messages).2) := by
    apply dictGet_append_single_self
    intro p hp
    simp only [List.mem_cons, List.not_mem_nil, or_false] at hp
    rcases hp with rfl | rfl | rfl | rfl | rfl <;> simp
  cases req.stop with
  | none =>
      cases htp : truthyOptQ req.top_p with
      | false => simp only [htp, Bool.false_eq_true, if_false]; exact h0
      | true =>
          simp only [htp, if_true]
          rw [dictGet_append_single_ne _ _ _ _ (by decide)]
          exact h0
  | some st =>
      cases hts : truthyStop (some st) with
      | false =>
          simp only [hts, Bool.false_eq_true, if_false]
          cases htp : truthyOptQ req.top_p with
          | false => simp only [htp, Bool.false_eq_true, if_false]; exact h0
          | true =>
              simp only [htp, if_true]
              rw [dictGet_append_single_ne _ _ _ _ (by decide)]
              exact h0
      | true =>
          simp only [hts, if_true]
          rw [dictGet_append_single_ne _ _ _ _ (by decide)]
          cases htp : truthyOptQ req.top_p with
          | false => simp only [htp, Bool.false_eq_true, if_false]; exact h0
          | true =>
              simp only [htp, if_true]
              rw [dictGet_append_single_ne _ _ _ _ (by decide)]
              exact h0

lemma dictGet_claudeBaseParams_messages (req : UnifiedChatRequest) (streamFlag : Bool) :
    dictGet (claudeBaseParams req streamFlag) "messages" =
      some (.arr (convertToClaudeMessages req.messages).1) := by
  unfold claudeBaseParams
  have h0 : dictGet
      [("model", JsonV.str req.model),
       ("messages", .arr (convertToClaudeMessages req.messages).1),
       ("max_tokens",
         .num (((if truthyOptNat req.max_tokens then req.max_tokens.getD 0 else 1000) : Nat) : ℚ)),
       ("temperature", .num req.temperature),
       ("stream", .bool streamFlag)] "messages" =
      some (.arr (convertToClaudeMessages req.messages).1) := by
    simp [dictGet_cons]
  have h1 : ∀ tail : JsonObj, (∀ p ∈ tail, p.fst ≠ "messages") →
      dictGet
        ([("model", JsonV.str req.model),
          ("messages", .arr (convertToClaudeMessages req.messages).1),
          ("max_tokens",
            .num (((if truthyOptNat req.max_tokens then req.max_tokens.getD 0 else 1000) : Nat) : ℚ)),
          ("temperature", .num req.temperature),
          ("stream", .bool streamFlag)] ++ tail) "messages" =
      some (.arr (convertToClaudeMessages req.messages).1) := by
    intro tail _
    exact dictGet_append_of_some _ _ _ _ h0
  cases hsy : (convertToClaudeMessages req.messages).2 != "" with
  | false =>
      simp only [hsy, Bool.false_eq_true, if_false]
      cases req.stop with
      | none =>
          cases htp : truthyOptQ req.top_p with
          | false => simp only [htp, Bool.false_eq_true, if_false]; exact h0
          | true => simp only [htp, if_true]; exact h1 _ (by intro p hp; simp only [List.mem_singleton] at hp; rw [hp]; simp)
      | some st =>
          cases hts : truthyStop (some st) with
          | false =>
              simp only [hts, Bool.false_eq_true, if_false]
              cases htp : truthyOptQ req.top_p with
              | false => simp only [htp, Bool.false_eq_true, if_false]; exact h0
              | true => simp only [htp, if_true]; exact h1 _ (by intro p hp; simp only [List.mem_singleton] at hp; rw [hp]; simp)
          | true =>
              simp only [hts, if_true]
              cases htp : truthyOptQ req.top_p with
              | false =>
                  simp only [htp, Bool.false_eq_true, if_false]
                  rw [dictGet_append_single_ne _ _ _ _ (by decide)]
                  exact h0
              | true =>
                  simp only [htp, if_true]
                  rw [List.append_assoc]
                  refine h1 _ ?_
                  intro p hp
                  simp only [List.mem_append, List.mem_singleton] at hp
                  rcases hp with rfl | rfl <;> simp
  | true =>
      simp only [hsy, if_true]
      cases req.stop with
      | none =>
          cases htp : truthyOptQ req.top_p with
          | false =>
              simp only [htp, Bool.false_eq_true, if_false]
              exact h1 _ (by intro p hp; simp only [List.mem_singleton] at hp; rw [hp]; simp)
          | true =>
              simp only [htp, if_true]
              rw [List.append_assoc]
              refine h1 _ ?_
              intro p hp
              simp only [List.mem_append, List.mem_singleton] at hp
              rcases hp with rfl | rfl <;> simp
      | some st =>
          cases hts : truthyStop (some st) with
          | false =>
              simp only [hts, Bool.false_eq_true, if_false]
              cases htp : truthyOptQ req.top_p with
              | false =>
                  simp only [htp, Bool.false_eq_true, if_false]
                  exact h1 _ (by intro p hp; simp only [List.mem_singleton] at hp; rw [hp]; simp)
              | true =>
                  simp only [htp, if_true]
                  rw [List.append_assoc]
                  refine h1 _ ?_
                  intro p hp
                  simp only [List.mem_append, List.mem_singleton] at hp
                  rcases hp with rfl | rfl <;> simp
          | true =>
              simp only [hts, if_true]
              cases htp : truthyOptQ req.top_p with
              | false =>
                  simp only [htp, Bool.false_eq_true, if_false]
                  rw [List.append_assoc]
                  refine h1 _ ?_
                  intro p hp
                  simp only [List.mem_append, List.mem_singleton] at hp
                  rcases hp with rfl | rfl <;> simp
              | true =>
                  simp only [htp, if_true]
                  rw [List.append_assoc, List.append_assoc]
                  refine h1 _ ?_
                  intro p hp
                  simp only [List.mem_append, List.mem_singleton] at hp
                  rcases hp with rfl | rfl | rfl <;> simp

/-- C8 counterexample: the claim quantifies over every request with one
leading system message, but a request whose `extra_params` carries a
`"system"` key overrides the dedicated system field (the adapters apply
`update(extra_params)` last), so the payload's `system` is not the
system message's content. -/
theorem claude_system_shadow_counterexample :
    dictGet (claudeApiParams
      { messages := [⟨.system, "be nice", none, none⟩, ⟨.user, "hi", none, none⟩],
        model := "claude-3", extra_params := [("system", .str "OVERRIDE")] } false)
      "system" = some (.str "OVERRIDE") ∧
    JsonV.str "OVERRIDE" ≠ JsonV.str "be nice" := by
  constructor
  · rfl
  · intro h
    injection h with h2
    exact absurd h2 (by decide)

/-- C8 (amended): for every request to the Claude adapter containing one
system message followed by user/assistant messages — provided
`extra_params` does not override the `system` or `messages` keys — the
wire payload carries the system message's content in the dedicated
top-level `system` field, and the `messages` array is exactly the
remaining messages in their original order as `{role, content}` objects
(so the system message is not a turn in the array and only role/content
are kept). -/
theorem claude_payload_system_and_messages (req : UnifiedChatRequest) (streamFlag : Bool)
    (sysMsg : UnifiedMessage) (rest : List UnifiedMessage)
    (hmsgs : req.messages = sysMsg :: rest)
    (hs : sysMsg.role = .system)
    (hcne : sysMsg.content ≠ "")
    (hrest : ∀ m ∈ rest, m.role = .user ∨ m.role = .assistant)
    (hx1 : ∀ p ∈ req.extra_params, p.fst ≠ "system")
    (hx2 : ∀ p ∈ req.extra_params, p.fst ≠ "messages") :
    dictGet (claudeApiParams req streamFlag) "system" = some (.str sysMsg.content) ∧
    dictGet (claudeApiParams req streamFlag) "messages" =
      some (.arr (rest.map (fun m =>
        JsonV.obj [("role", .str m.role.value), ("content", .str m.content)]))) := by
  have hnosys : ∀ m ∈ rest, m.role ≠ .system := by
    intro m hm hsys
    rcases hrest m hm with h | h <;> rw [h] at hsys <;> cases hsys
  have hconv : convertToClaudeMessages req.messages =
      (rest.map (fun m =>
        JsonV.obj [("role", .str m.role.value), ("content", .str m.content)]),
       sysMsg.content) := by
    rw [hmsgs]
    exact convertToClaudeMessages_system_head sysMsg rest hs hnosys
  constructor
  · have h1 : dictGet (claudeApiParams req streamFlag) "system" =
        dictGet (claudeBaseParams req streamFlag) "system" :=
      dictGet_dictUpdate_not_key _ _ _ hx1
    rw [h1, dictGet_claudeBaseParams_system req streamFlag (by rw [hconv]; exact hcne)]
    rw [hconv]
  · have h1 : dictGet (claudeApiParams req streamFlag) "messages" =
        dictGet (claudeBaseParams req streamFlag) "messages" :=
      dictGet_dictUpdate_not_key _ _ _ hx2
    rw [h1, dictGet_claudeBaseParams_messages req streamFlag, hconv]

/-- C8 witness: the amended statement on a concrete request with one
system message and one user turn. -/
theorem claude_payload_system_and_messages_witness :
    (([⟨.system, "be nice", none, none⟩, ⟨.user, "hi", none, none⟩] :
        List UnifiedMessage) =
      (⟨.system, "be nice", none, none⟩ : UnifiedMessage) :: [⟨.user, "hi", none, none⟩]) ∧
    ((⟨.system, "be nice", none, none⟩ : UnifiedMessage).role = .system) ∧
    (dictGet (claudeApiParams
        { messages := [⟨.system, "be nice", none, none⟩, ⟨.user, "hi", none, none⟩],
          model := "claude-3" } false) "system" = some (.str "be nice") ∧
      dictGet (claudeApiParams
        { messages := [⟨.system, "be nice", none, none⟩, ⟨.user, "hi", none, none⟩],
          model := "claude-3" } false) "messages" =
        some (.arr [.obj [("role", .str "user"), ("content", .str "hi")]])) := by
  refine ⟨rfl, rfl, ?_⟩
  have h := claude_payload_system_and_messages
    { messages := [⟨.system, "be nice", none, none⟩, ⟨.user, "hi", none, none⟩],
      model := "claude-3" } false
    ⟨.system, "be nice", none, none⟩ [⟨.user, "hi", none, none⟩]
    rfl rfl (by decide)
    (by intro m hm; simp at hm; rw [hm]; left; rfl)
    (by intro p hp; simp at hp) (by intro p hp; simp at hp)
  exact h

/-- `UnifiedStreamResponseContent` from src/models/schemas/ai_provider.py. -/
structure UnifiedStreamResponseContent where
  type : String := "text"
  text : Option String := none
  reasoning : Option String := none

/-- `UnifiedStreamResponse` from src/models/schemas/ai_provider.py
(lines 79-89): note `content` is declared `Field(...)` — required, with
no default. -/
structure UnifiedStreamResponse where
  id : String
  delta : String
  reasoning : Option String := none
  content : UnifiedStreamResponseContent
  model : String
  provider : ProviderType
  finish_reason : Option String := none

/-- Pydantic construction of `UnifiedStreamResponse` with the keyword
arguments the adapters pass.  `content` is required with no default, so
a construction that does not supply it (`content? = none`) raises a
`ValidationError`, modelled as `none`. -/
def mkUnifiedStreamResponse (id delta model : String) (provider : ProviderType)
    (finish_reason : Option String) (content? : Option UnifiedStreamResponseContent) :
    Option UnifiedStreamResponse :=
  match content? with
  | some c => some { id := id, delta := delta, content := c, model := model,
                     provider := provider, finish_reason := finish_reason }
  | none => none

/-- `data.get(k)` on a decoded JSON value (`none` when the value is not
an object or the key is absent; a non-object would raise
`AttributeError`, which every streaming loop catches and skips —
observably the same as no event match). -/
def jGet : JsonV → String → Option JsonV
  | .obj fs, k => dictGet fs k
  | _, _ => none

/-- `data.get(k, "")`, coerced to the string payload. -/
def jGetStrD (j : JsonV) (k : String) (dflt : String) : String :=
  match jGet j k with
  | some (.str s) => s
  | _ => dflt

/-- One line of an SSE response body as seen by the streaming loops: a
`data: ` line whose payload parses as JSON, the `data: [DONE]` sentinel,
a `data: ` line with unparsable JSON, or a line without the `data: `
marker. -/
inductive RawLine
  | data (j : JsonV)
  | dataDone
  | dataBad
  | other

/-- The fragment (if any) produced for one parsed `data:` line by the
event dispatch of `DifyProvider._call_stream_api` (lines 216-241):
`message` yields a full chunk with `finish_reason = "stop"`,
`message_delta` an incremental chunk, `message_end` a terminal marker;
any other event is skipped.  Every construction omits the required
`content` field, and the resulting `ValidationError` is caught by the
`except Exception: continue`, i.e. gives `none`. -/
def difyLineFragment (response_id model : String) (j : JsonV) :
    Option UnifiedStreamResponse :=
  match jGet j "event" with
  | some (.str e) =>
      if e = "message" then
        mkUnifiedStreamResponse response_id (jGetStrD j "answer" "") model .dify
          (some "stop") none
      else if e = "message_delta" then
        mkUnifiedStreamResponse response_id (jGetStrD j "delta" "") model .dify
          none none
      else if e = "message_end" then
        mkUnifiedStreamResponse response_id "" model .dify (some "stop") none
      else none
  | _ => none

/-- The `async for line` loop of `DifyProvider._call_stream_api` (lines
204-250): stop at `data: [DONE]`, skip non-`data:` lines and unparsable
payloads, otherwise dispatch on the event and yield the fragment when
its construction succeeds. -/
def difyProcessLines (response_id model : String) :
    List RawLine → List UnifiedStreamResponse
  | [] => []
  | .dataDone :: _ => []
  | .dataBad :: rest => difyProcessLines response_id model rest
  | .other :: rest => difyProcessLines response_id model rest
  | .data j :: rest =>
      match difyLineFragment response_id model j with
      | some r => r :: difyProcessLines response_id model rest
      | none => difyProcessLines response_id model rest

/-- The fragment (if any) produced for one parsed `data:` line by
`ClaudeProvider._call_stream_api` (lines 192-210): a
`content_block_delta` with non-empty text yields an incremental
fragment, `message_stop` yields the terminal fragment; constructions
omit the required `content` field and the `ValidationError` is caught
by the `except Exception: continue`. -/
def claudeLineFragment (response_id model : String) (j : JsonV) :
    Option UnifiedStreamResponse :=
  match jGet j "type" with
  | some (.str t) =>
      if t = "content_block_delta" then
        let delta := jGetStrD ((jGet j "delta").getD (.obj [])) "text" ""
        if delta != "" then
          mkUnifiedStreamResponse response_id delta model .claude none none
        else none
      else if t = "message_stop" then
        mkUnifiedStreamResponse response_id "" model .claude (some "stop") none
      else none
  | _ => none

/-- The `async for line` loop of `ClaudeProvider._call_stream_api`: no
`[DONE]` handling exists, so the sentinel fails `json.loads` and is
skipped like any unparsable line. -/
def claudeProcessLines (response_id model : String) :
    List RawLine → List UnifiedStreamResponse
  | [] => []
  | .dataDone :: rest => claudeProcessLines response_id model rest
  | .dataBad :: rest => claudeProcessLines response_id model rest
  | .other :: rest => claudeProcessLines response_id model rest
  | .data j :: rest =>
      match claudeLineFragment response_id model j with
      | some r => r :: claudeProcessLines response_id model rest
      | none => claudeProcessLines response_id model rest

/-- `chunk.choices[0].delta` of an OpenAI SDK streamed chunk. -/
structure OpenAIDelta where
  content : Option String := none

/-- One element of `chunk.choices`. -/
structure OpenAIChoice where
  delta : OpenAIDelta
  finish_reason : Option String := none

/-- One streamed chunk from the OpenAI SDK. -/
structure OpenAIChunk where
  choices : List OpenAIChoice
  model : String

/-- A Python exception class relevant to the embedded code paths. -/
inductive PyError
  | attributeError (attr : String)
  | validationError
  | valueError (msg : String)
  deriving DecidableEq, Repr

/-- `chunk.choices and chunk.choices[0].delta.content` (Python
truthiness: non-empty list and non-`None`, non-empty string). -/
def chunkHasContent (c : OpenAIChunk) : Bool :=
  match c.choices.head? with
  | some ch =>
      match ch.delta.content with
      | some s => s != ""
      | none => false
  | none => false

/-- The fragment construction attempted by
`OpenAIProvider._call_stream_api` (lines 183-191) for a content-bearing
chunk — again without the required `content` field. -/
def openaiChunkFragment (response_id : String) (c : OpenAIChunk) :
    Option UnifiedStreamResponse :=
  mkUnifiedStreamResponse response_id
    ((c.choices.head?.map (fun ch => ch.delta.content.getD "")).getD "")
    c.model .openai
    ((c.choices.head?.map (fun ch => ch.finish_reason)).getD none) none

/-- Outcome of iterating the OpenAI stream generator: the fragments
yielded before any exception, and the exception (if one propagated out
of the generator — there is no try/except in the OpenAI loop). -/
structure OpenAIStreamOut where
  yielded : List UnifiedStreamResponse
  raised : Option PyError

/-- The `async for chunk in stream` loop of
`OpenAIProvider._call_stream_api`: chunks without truthy
`choices[0].delta.content` are skipped (including the terminal chunk,
whose delta content is empty); for content-bearing chunks the fragment
construction is attempted and any `ValidationError` propagates. -/
def openaiProcessChunks (response_id : String) : List OpenAIChunk → OpenAIStreamOut
  | [] => { yielded := [], raised := none }
  | c :: rest =>
      if chunkHasContent c then
        match openaiChunkFragment response_id c with
        | some r =>
            let o := openaiProcessChunks response_id rest
            { yielded := r :: o.yielded, raised := o.raised }
        | none => { yielded := [], raised := some .validationError }
      else openaiProcessChunks response_id rest

lemma difyLineFragment_none (response_id model : String) (j : JsonV) :
    difyLineFragment response_id model j = none := by
  unfold difyLineFragment
  cases jGet j "event" with
  | none => rfl
  | some v => cases v <;> simp [mkUnifiedStreamResponse]

lemma claudeLineFragment_none (response_id model : String) (j : JsonV) :
    claudeLineFragment response_id model j = none := by
  unfold claudeLineFragment
  cases jGet j "type" with
  | none => rfl
  | some v => cases v <;> simp [mkUnifiedStreamResponse]

/-- C7: `UnifiedStreamResponse` declares `content` as required, no
adapter's streaming path supplies it, so every fragment construction
fails validation: the Dify and Claude loops catch the per-line exception
and skip — yielding no fragments at all on any input — while the OpenAI
loop has no try/except, so the first content-bearing chunk makes the
validation error propagate out of the generator with nothing yielded. -/
theorem stream_fragments_fail_validation :
    (∀ (id delta model : String) (p : ProviderType) (fr : Option String),
      mkUnifiedStreamResponse id delta model p fr none = none) ∧
    (∀ (response_id model : String) (lines : List RawLine),
      difyProcessLines response_id model lines = []) ∧
    (∀ (response_id model : String) (lines : List RawLine),
      claudeProcessLines response_id model lines = []) ∧
    (∀ (response_id : String) (chunks : List OpenAIChunk),
      openaiProcessChunks response_id chunks =
        { yielded := [],
          raised := if chunks.any chunkHasContent then some .validationError
                    else none }) := by
  refine ⟨fun _ _ _ _ _ => rfl, ?_, ?_, ?_⟩
  · intro response_id model lines
    induction lines with
    | nil => rfl
    | cons l rest ih =>
        cases l with
        | dataDone => rfl
        | dataBad => exact ih
        | other => exact ih
        | data j =>
            simp only [difyProcessLines, difyLineFragment_none]
            exact ih
  · intro response_id model lines
    induction lines with
    | nil => rfl
    | cons l rest ih =>
        cases l with
        | dataDone => exact ih
        | dataBad => exact ih
        | other => exact ih
        | data j =>
            simp only [claudeProcessLines, claudeLineFragment_none]
            exact ih
  · intro response_id chunks
    induction chunks with
    | nil => rfl
    | cons c rest ih =>
        cases hc : chunkHasContent c with
        | true =>
            simp only [openaiProcessChunks, hc, if_true, openaiChunkFragment,
              mkUnifiedStreamResponse, List.any_cons, Bool.true_or]
        | false =>
            simp only [openaiProcessChunks, hc, Bool.false_eq_true, if_false,
              List.any_cons, Bool.false_or]
            exact ih

/-- C4 at a concrete scripted body (the code-bug evaluation): a Dify
streaming body with one content fragment (`message_delta` "Hello")
followed by the `message_end` terminal marker yields no fragments at
all (the claim requires one non-terminal fragment then one terminal
fragment); on the OpenAI side, a content chunk followed by a terminal
chunk yields nothing and raises the validation error out of the
generator. -/
theorem stream_shape_counterexample :
    difyProcessLines "rid" "m"
      [.data (.obj [("event", .str "message_delta"), ("delta", .str "Hello")]),
       .data (.obj [("event", .str "message_end")]),
       .dataDone] = [] ∧
    (openaiProcessChunks "rid"
      [{ choices := [{ delta := { content := some "Hello" }, finish_reason := none }],
         model := "m" },
       { choices := [{ delta := { content := none }, finish_reason := some "stop" }],
         model := "m" }]).yielded = [] ∧
    (openaiProcessChunks "rid"
      [{ choices := [{ delta := { content := some "Hello" }, finish_reason := none }],
         model := "m" },
       { choices := [{ delta := { content := none }, finish_reason := some "stop" }],
         model := "m" }]).raised = some .validationError :=
  ⟨rfl, rfl, rfl⟩

/-- The scripted behavior of one `_call_stream_api` iteration: the
fragments produced, then optionally an exception (its `str`) raised
during iteration. -/
structure StreamScript where
  frags : List UnifiedStreamResponse
  fail : Option String := none

/-- The `STREAM_ERROR` raised by `chat_stream` (base_provider.py lines
218-226). -/
def streamError (pt : ProviderType) (msg : String) : ProviderErrorE :=
  { error_code := "STREAM_ERROR",
    error_message := "Stream chat failed: " ++ msg,
    provider := pt,
    is_retryable := true }

/-- Observable outcome of one `BaseModelProvider.chat_stream` call: the
fragments yielded to the consumer, the metrics afterwards, the raised
error (if any), and the number of `_call_stream_api` invocations. -/
structure StreamChatOut where
  yielded : List UnifiedStreamResponse
  metrics : ProviderMetrics
  err : Option ProviderErrorE
  stream_calls : Nat

/-- Success-path metrics update of `chat_stream` (base_provider.py lines
203-209): fold the latency into the running average; no token total is
added on the streaming path. -/
def metricsOnStreamSuccess (m : ProviderMetrics) (latency : Nat) : ProviderMetrics :=
  let sc := m.success_count + 1
  { m with
      success_count := sc,
      avg_latency_ms := (m.avg_latency_ms * ((sc : ℚ) - 1) + (latency : ℚ)) / (sc : ℚ) }

/-- `BaseModelProvider.chat_stream` (base_provider.py lines 177-226):
increment `request_count`, call `_call_stream_api` exactly once and
re-yield its fragments; on full exhaustion update the success metrics;
on any failure during iteration increment `error_count` and raise
`STREAM_ERROR` (retryable) — the stream is never retried. -/
def chatStream (pt : ProviderType) (script : StreamScript) (duration_ms : Nat)
    (m : ProviderMetrics) : StreamChatOut :=
  let m1 := { m with request_count := m.request_count + 1 }
  match script.fail with
  | some emsg =>
      { yielded := script.frags,
        metrics := { m1 with error_count := m1.error_count + 1 },
        err := some (streamError pt emsg),
        stream_calls := 1 }
  | none =>
      { yielded := script.frags,
        metrics := metricsOnStreamSuccess m1 duration_ms,
        err := none,
        stream_calls := 1 }

/-- C9: if iteration of the underlying stream fails, `chat_stream`
increments `error_count` by one and raises a `ProviderError` with code
`STREAM_ERROR` and `is_retryable = true`; `_call_stream_api` is invoked
exactly once (zero retries on the streaming path, in contrast to the
`max_retries` retries of `chat`), and the fragments already yielded are
exactly those the underlying stream produced. -/
theorem chat_stream_error_no_retry (pt : ProviderType) (script : StreamScript)
    (duration_ms : Nat) (m : ProviderMetrics) (emsg : String)
    (hf : script.fail = some emsg) :
    (chatStream pt script duration_ms m).err = some
      { error_code := "STREAM_ERROR",
        error_message := "Stream chat failed: " ++ emsg,
        provider := pt, retry_after := none, is_retryable := true } ∧
    (chatStream pt script duration_ms m).metrics.error_count = m.error_count + 1 ∧
    (chatStream pt script duration_ms m).metrics.request_count = m.request_count + 1 ∧
    (chatStream pt script duration_ms m).metrics.success_count = m.success_count ∧
    (chatStream pt script duration_ms m).stream_calls = 1 ∧
    (chatStream pt script duration_ms m).yielded = script.frags := by
  refine ⟨?_, ?_, ?_, ?_, ?_, ?_⟩ <;> simp [chatStream, hf, streamError]

/-- C9 witness: the statement at a concrete failing stream. -/
theorem chat_stream_error_no_retry_witness :
    ((({ frags := [], fail := some "connection reset" } : StreamScript).fail =
        some "connection reset") ∧
      (chatStream .openai { frags := [], fail := some "connection reset" } 40
          sampleMetrics).err = some
        { error_code := "STREAM_ERROR",
          error_message := "Stream chat failed: " ++ "connection reset",
          provider := .openai, retry_after := none, is_retryable := true } ∧
      (chatStream .openai { frags := [], fail := some "connection reset" } 40
          sampleMetrics).metrics.error_count = sampleMetrics.error_count + 1 ∧
      (chatStream .openai { frags := [], fail := some "connection reset" } 40
          sampleMetrics).stream_calls = 1) := by
  have h := chat_stream_error_no_retry .openai
    { frags := [], fail := some "connection reset" } 40 sampleMetrics
    "connection reset" rfl
  exact ⟨rfl, h.1, h.2.1, h.2.2.2.2.1⟩

/-- The fields of `ClaudeConfig` (ai_provider.py) the constructor path
reads. -/
structure ClaudeConfig where
  api_key : String
  base_url : Option String := none
  default_model : String := "claude-3-haiku-20240307"

/-- The attribute state of a `ClaudeProvider` object while its
constructor runs: each attribute is `none` until the corresponding
assignment statement has executed. -/
structure ClaudeProviderState where
  config : Option ClaudeConfig := none
  claude_config : Option ClaudeConfig := none
  metrics : Option ProviderMetrics := none
  client_initialized : Bool := false

/-- `ClaudeProvider._validate_config` (claude_provider.py lines 45-48):
it reads `self.claude_config`; if that attribute has not been assigned
yet, Python raises `AttributeError`. -/
def claudeValidateConfig (s : ClaudeProviderState) : Except PyError Unit :=
  match s.claude_config with
  | none => .error (.attributeError "claude_config")
  | some c =>
      if c.api_key = "" then .error (.valueError "Claude API key is required")
      else .ok ()

/-- `ClaudeProvider.__init__` (claude_provider.py lines 32-39): it calls
`super().__init__(config)` FIRST; `BaseModelProvider.__init__`
(base_provider.py lines 32-52) assigns `self.config`, `provider_type`
and `metrics`, then calls `self._validate_config()` — which reads
`self.claude_config`, assigned only after the `super()` call returns. -/
def claudeProviderInit (cfg : ClaudeConfig) : Except PyError ClaudeProviderState := do
  let s : ClaudeProviderState :=
    { config := some cfg,
      metrics := some { provider := .claude, model := cfg.default_model } }
  let _ ← claudeValidateConfig s
  let s2 := { s with client_initialized := true }
  pure { s2 with claude_config := some cfg }

/-- C6: for every configuration object, valid or not, constructing a
`ClaudeProvider` raises `AttributeError`: the base constructor invokes
`_validate_config` (which reads `self.claude_config`) before
`ClaudeProvider.__init__` assigns `self.claude_config`, so the Claude
adapter can never be instantiated successfully. -/
theorem claude_provider_init_always_fails (cfg : ClaudeConfig) :
    claudeProviderInit cfg = .error (.attributeError "claude_config") := rfl

/-- An adapter instance, abstracted. -/
structure ProviderInstance where
  tag : String

/-- A provider class as the registry sees it: whether it inherits
`BaseModelProvider` (what `issubclass` checks) and its constructor. -/
structure AdapterClass where
  inheritsBaseModelProvider : Bool
  construct : JsonObj → Except PyError ProviderInstance

/-- A config class as the registry sees it: whether it inherits
`BaseProviderConfig` and its pydantic constructor
(`config_class(**config_data)`), which validates the raw data. -/
structure ConfigClass where
  inheritsBaseProviderConfig : Bool
  construct : JsonObj → Except PyError JsonObj

/-- `ProviderRegistry.__init__` state: the two dicts `_providers` and
`_config_classes` (base_provider.py lines 243-246). -/
structure ProviderRegistry where
  providers : List (ProviderType × AdapterClass) := []
  config_classes : List (ProviderType × ConfigClass) := []

/-- Dict lookup keyed by `ProviderType` (`.get`). -/
def regGet {α : Type} (l : List (ProviderType × α)) (t : ProviderType) : Option α :=
  (l.find? (fun p => p.fst = t)).map Prod.snd

/-- Dict assignment keyed by `ProviderType` (`d[t] = v`). -/
def regSet {α : Type} (l : List (ProviderType × α)) (t : ProviderType) (v : α) :
    List (ProviderType × α) :=
  if l.any (fun p => p.fst = t) then
    l.map (fun p => if p.fst = t then (t, v) else p)
  else
    l ++ [(t, v)]

/-- `ProviderRegistry.register` (base_provider.py lines 253-273):
`issubclass` checks on both classes, then assignment into both dicts
(an existing tag is overwritten). -/
def registryRegister (r : ProviderRegistry) (t : ProviderType)
    (provider_class : AdapterClass) (config_class : ConfigClass) :
    Except PyError ProviderRegistry :=
  if !provider_class.inheritsBaseModelProvider then
    .error (.valueError "Provider class must inherit from BaseModelProvider")
  else if !config_class.inheritsBaseProviderConfig then
    .error (.valueError "Config class must inherit from BaseProviderConfig")
  else
    .ok { providers := regSet r.providers t provider_class,
          config_classes := regSet r.config_classes t config_class }

/-- `ProviderRegistry.create_provider` (base_provider.py lines 287-310):
look up both classes; if either is missing raise
`ValueError("Unknown provider: ...")` — before any constructor runs —
otherwise construct and validate the config from the raw data, then
construct the adapter. -/
def createProvider (r : ProviderRegistry) (t : ProviderType) (config_data : JsonObj) :
    Except PyError ProviderInstance :=
  match regGet r.providers t, regGet r.config_classes t with
  | some provider_class, some config_class => do
      let config ← config_class.construct config_data
      provider_class.construct config
  | _, _ => .error (.valueError ("Unknown provider: " ++ t.value))

lemma regGet_cons {α : Type} (p : ProviderType × α) (l : List (ProviderType × α))
    (t : ProviderType) :
    regGet (p :: l) t = if p.fst = t then some p.snd else regGet l t := by
  by_cases h : p.fst = t <;> simp [regGet, List.find?_cons, h]

lemma regGet_regSet_self {α : Type} (l : List (ProviderType × α)) (t : ProviderType)
    (v : α) : regGet (regSet l t v) t = some v := by
  unfold regSet
  by_cases hany : l.any (fun p => p.fst = t)
  · rw [if_pos hany]
    induction l with
    | nil => simp at hany
    | cons p l ih =>
        rw [List.map_cons, regGet_cons]
        by_cases hp : p.fst = t
        · rw [if_pos hp]
          simp
        · rw [if_neg hp]
          simp only [hp, if_false]
          have hany2 : l.any (fun p => p.fst = t) := by
            simp [List.any_cons, hp] at hany
            simpa using hany
          exact ih hany2
  · rw [if_neg hany]
    induction l with
    | nil => simp [regGet]
    | cons p l ih =>
        rw [List.cons_append, regGet_cons]
        have hp : p.fst ≠ t := by
          intro hk
          exact hany (by simp [List.any_cons, hk])
        rw [if_neg hp]
        have hany2 : ¬ l.any (fun p => p.fst = t) := by
          intro h2
          exact hany (by simp [List.any_cons]; right; simpa using h2)
        exact ih hany2

/-- C10: creating a provider for an unregistered tag fails with the
descriptive "Unknown provider" error, independently of the raw config
data and of every constructor held in the registry (so before any
config or adapter construction); `register` rejects classes that do not
inherit the adapter/config base classes; and registering the same tag
twice deterministically overrides the prior registration in both dicts. -/
theorem registry_create_and_register_spec :
    (∀ (r : ProviderRegistry) (t : ProviderType) (config_data : JsonObj),
      regGet r.providers t = none →
      createProvider r t config_data =
        .error (.valueError ("Unknown provider: " ++ t.value))) ∧
    (∀ (r : ProviderRegistry) (t : ProviderType) (config_data : JsonObj),
      regGet r.config_classes t = none →
      createProvider r t config_data =
        .error (.valueError ("Unknown provider: " ++ t.value))) ∧
    (∀ (r : ProviderRegistry) (t : ProviderType) (pc : AdapterClass) (cc : ConfigClass),
      pc.inheritsBaseModelProvider = false →
      registryRegister r t pc cc =
        .error (.valueError "Provider class must inherit from BaseModelProvider")) ∧
    (∀ (r : ProviderRegistry) (t : ProviderType) (pc : AdapterClass) (cc : ConfigClass),
      pc.inheritsBaseModelProvider = true →
      cc.inheritsBaseProviderConfig = false →
      registryRegister r t pc cc =
        .error (.valueError "Config class must inherit from BaseProviderConfig")) ∧
    (∀ (r r1 r2 : ProviderRegistry) (t : ProviderType)
      (pc1 pc2 : AdapterClass) (cc1 cc2 : ConfigClass),
      registryRegister r t pc1 cc1 = .ok r1 →
      registryRegister r1 t pc2 cc2 = .ok r2 →
      regGet r2.providers t = some pc2 ∧ regGet r2.config_classes t = some cc2) := by
  refine ⟨?_, ?_, ?_, ?_, ?_⟩
  · intro r t config_data h
    unfold createProvider
    rw [h]
  · intro r t config_data h
    unfold createProvider
    rw [h]
    cases regGet r.providers t <;> rfl
  · intro r t pc cc h
    simp [registryRegister, h]
  · intro r t pc cc h1 h2
    simp [registryRegister, h1, h2]
  · intro r r1 r2 t pc1 pc2 cc1 cc2 h1 h2
    unfold registryRegister at h2
    cases hb1 : pc2.inheritsBaseModelProvider with
    | false => rw [hb1] at h2; simp at h2
    | true =>
        rw [hb1] at h2
        cases hb2 : cc2.inheritsBaseProviderConfig with
        | false => rw [hb2] at h2; simp at h2
        | true =>
            rw [hb2] at h2
            simp only [Bool.not_true, Bool.false_eq_true, if_false] at h2
            have hr2 : r2 = { providers := regSet r1.providers t pc2,
                              config_classes := regSet r1.config_classes t cc2 } :=
              (Except.ok.inj h2).symm
            rw [hr2]
            exact ⟨regGet_regSet_self r1.providers t pc2,
                   regGet_regSet_self r1.config_classes t cc2⟩

/-- C10 witness: the five parts at concrete inputs — an empty registry
for lookup failure, a non-inheriting class for rejection, and a double
registration of the `dify` tag whose second classes win. -/
theorem registry_create_and_register_spec_witness :
    (createProvider {} .dify [] =
      .error (.valueError ("Unknown provider: " ++ ProviderType.dify.value))) ∧
    (registryRegister {} .dify
        { inheritsBaseModelProvider := false,
          construct := fun _ => .error .validationError }
        { inheritsBaseProviderConfig := true, construct := fun d => .ok d } =
      .error (.valueError "Provider class must inherit from BaseModelProvider")) ∧
    (regGet (ProviderRegistry.providers
        { providers := [(ProviderType.dify,
            { inheritsBaseModelProvider := true,
              construct := fun _ => .ok { tag := "two" } })],
          config_classes := [(ProviderType.dify,
            { inheritsBaseProviderConfig := true, construct := fun d => .ok d })] })
        ProviderType.dify =
      some { inheritsBaseModelProvider := true,
             construct := fun _ => .ok { tag := "two" } }) := by
  refine ⟨?_, ?_, ?_⟩
  · exact registry_create_and_register_spec.1 {} .dify [] rfl
  · exact registry_create_and_register_spec.2.2.1 {} .dify
      { inheritsBaseModelProvider := false,
        construct := fun _ => .error .validationError }
      { inheritsBaseProviderConfig := true, construct := fun d => .ok d } rfl
  · exact (registry_create_and_register_spec.2.2.2.2
      {}
      { providers := [(ProviderType.dify,
          { inheritsBaseModelProvider := true,
            construct := fun _ => .ok { tag := "one" } })],
        config_classes := [(ProviderType.dify,
          { inheritsBaseProviderConfig := true, construct := fun d => .ok d })] }
      { providers := [(ProviderType.dify,
          { inheritsBaseModelProvider := true,
            construct := fun _ => .ok { tag := "two" } })],
        config_classes := [(ProviderType.dify,
          { inheritsBaseProviderConfig := true, construct := fun d => .ok d })] }
      .dify
      { inheritsBaseModelProvider := true, construct := fun _ => .ok { tag := "one" } }
      { inheritsBaseModelProvider := true, construct := fun _ => .ok { tag := "two" } }
      { inheritsBaseProviderConfig := true, construct := fun d => .ok d }
      { inheritsBaseProviderConfig := true, construct := fun d => .ok d }
      rfl rfl).1

end Spec2Proof
